import Mathlib

/-!
MR-Clinic backend: the doctor repository

A shallow embedding of `repository/doctor/doctor.go` together with the
entities it stores, of the login handler `delivery/controllers/auth/auth.go`,
and of the doctor handlers as far as the specification and their tests
describe them, with theorems about their behaviour.

The relational database is a value of type `DB`: one list of rows per
table, in insertion order.  Every ORM call of the source is a function on
that value.  What lies outside the repository (the clock, the uid
generator, the password hash, failures of the database connection) is
gathered in an `Env`, one per call.

Conventions of the embedding
* a Go `(value, error)` result is an `Except String value`, the string
  being the text of `err.Error()`;
* `time.Time` is a `Nat`, `0` being the zero time; `gorm.DeletedAt` is an
  `Option Nat`, `none` meaning that the row is live;
* SQL `=` on strings is exact equality (a binary collation);
* statements that only read are taken to succeed.
-/

namespace entities

/-- A row of the `visits` table (`entities/visit.go`). -/
structure Visit where
  CreatedAt : Nat
  UpdatedAt : Nat
  DeletedAt : Option Nat
  Visit_uid : String
  Doctor_uid : String
  Clinic_uid : String
  Patient_uid : String
  Date : Nat
  Status : String
deriving DecidableEq

/-- A row of the `doctors` table (`entities/doctor.go`).  The `Visits`
association of the Go struct is not a column; the repository never fills
it, so it is left out.  The Go field `Type` is `Type_` here, `Type` being
reserved. -/
structure Doctor where
  CreatedAt : Nat
  UpdatedAt : Nat
  DeletedAt : Option Nat
  Doctor_uid : String
  Doctor_uid_ref : String
  UserName : String
  Email : String
  Password : String
  Name : String
  Image : String
  Address : String
  Status : String
  OpenDay : String
  CloseDay : String
  Capacity : Int
  Type_ : String
deriving DecidableEq

/-- Modelled from the spec: `entities/patient.go` is not among the sources.
A patient is an identity and profile record, soft-deleted like the others;
the fields are those the repository tests and the cross-table user-name
query name. -/
structure Patient where
  CreatedAt : Nat
  UpdatedAt : Nat
  DeletedAt : Option Nat
  Patient_uid : String
  UserName : String
  Email : String
  Password : String
  Nik : String
  Name : String
deriving DecidableEq

end entities

open entities

/-- Equality of Go results is decidable. -/
instance instDecidableEqExcept {ε α : Type} [DecidableEq ε] [DecidableEq α] :
    DecidableEq (Except ε α)
  | .ok a, .ok b =>
    if h : a = b then isTrue (congrArg Except.ok h)
    else isFalse (fun h1 => h (Except.ok.inj h1))
  | .error a, .error b =>
    if h : a = b then isTrue (congrArg Except.error h)
    else isFalse (fun h1 => h (Except.error.inj h1))
  | .ok _, .error _ => isFalse (fun h1 => Except.noConfusion h1)
  | .error _, .ok _ => isFalse (fun h1 => Except.noConfusion h1)

/-- The database: the three tables, rows in insertion order. -/
structure DB where
  doctors : List Doctor
  patients : List Patient
  visits : List Visit
deriving DecidableEq

/-- The statements of the repository that write, or open or close a
transaction. -/
inductive Op where
  | begin
  | insertDoctor
  | insertAdmin
  | update
  | commit
  | delete
deriving DecidableEq

/-- Everything a call depends on besides the database and its arguments. -/
structure Env where
  /-- the clock read by the ORM -/
  now : Nat
  /-- the successive results of `shortuuid.New()` -/
  uids : List String
  /-- the function `utils.HashPassword`, which is not among the sources -/
  HashPassword : String → Except String String
  /-- an error of the connection itself on a statement, if any -/
  dbFault : Op → Option String

namespace gorm

/-- The text of `gorm.ErrRecordNotFound`. -/
def ErrRecordNotFound : String := "record not found"

/-- A row is visible to the ORM when it carries no tombstone. -/
def liveDoctor (d : Doctor) : Bool := d.DeletedAt.isNone

/-- Visibility of a patient row. -/
def livePatient (p : Patient) : Bool := p.DeletedAt.isNone

/-- The values of `enum('available', 'unAvailable')`. -/
def statusEnum : List String := ["available", "unAvailable"]

/-- The values of the enum of `open_day` and `close_day`. -/
def dayEnum : List String :=
  ["senin", "selasa", "rabu", "kamis", "jumat", "sabtu", "minggu"]

/-- The values of `enum('doctor', 'admin')`. -/
def typeEnum : List String := ["doctor", "admin"]

/-- The default of the `image` column. -/
def defaultImage : String :=
  "https://www.teralogistics.com/wp-content/uploads/2020/12/default.png"

/-- The all-zero Go value `entities.Doctor{}`. -/
def zeroDoctor : Doctor :=
  { CreatedAt := 0, UpdatedAt := 0, DeletedAt := none, Doctor_uid := "",
    Doctor_uid_ref := "", UserName := "", Email := "", Password := "",
    Name := "", Image := "", Address := "", Status := "", OpenDay := "",
    CloseDay := "", Capacity := 0, Type_ := "" }

/-- MySQL error 1406, strict mode. -/
def tooLong (col : String) : String :=
  "Error 1406: Data too long for column '" ++ col ++ "' at row 1"

/-- MySQL error 1265, strict mode. -/
def truncated (col : String) : String :=
  "Error 1265: Data truncated for column '" ++ col ++ "' at row 1"

/-- MySQL error 1062. -/
def duplicateKey (key : String) : String :=
  "Error 1062: Duplicate entry '" ++ key ++ "' for key 'PRIMARY'"

/-- A value is acceptable for an enum column when it is one of the listed
values; the empty string stands for a column that is not assigned. -/
def enumOk (allowed : List String) (v : String) : Bool :=
  v == "" || allowed.contains v

/-- The column constraints declared by the struct tags of
`entities.Doctor`, checked on the values a statement assigns: the first
violated one, in column order.  `image` has a default and no `type` tag,
for which the migrator of the MySQL driver creates a `varchar(191)`;
`name` and `address` have neither and become `longtext`, which no request
fills. -/
def columnError (d : Doctor) : Option String :=
  if 22 < d.Doctor_uid.length then some (tooLong "doctor_uid")
  else if 22 < d.Doctor_uid_ref.length then some (tooLong "doctor_uid_ref")
  else if 100 < d.UserName.length then some (tooLong "user_name")
  else if 100 < d.Email.length then some (tooLong "email")
  else if 100 < d.Password.length then some (tooLong "password")
  else if 191 < d.Image.length then some (tooLong "image")
  else if !enumOk statusEnum d.Status then some (truncated "status")
  else if !enumOk dayEnum d.OpenDay then some (truncated "open_day")
  else if !enumOk dayEnum d.CloseDay then some (truncated "close_day")
  else if !enumOk typeEnum d.Type_ then some (truncated "type")
  else none

/-- What `Create(&req)` does to `req` before the INSERT: zero fields that
have a default take it, and zero time stamps take the clock. -/
def withDefaults (now : Nat) (d : Doctor) : Doctor :=
  { d with
    CreatedAt := if d.CreatedAt = 0 then now else d.CreatedAt
    UpdatedAt := if d.UpdatedAt = 0 then now else d.UpdatedAt
    Image := if d.Image = "" then defaultImage else d.Image
    Status := if d.Status = "" then "available" else d.Status
    OpenDay := if d.OpenDay = "" then "senin" else d.OpenDay
    CloseDay := if d.CloseDay = "" then "senin" else d.CloseDay
    Type_ := if d.Type_ = "" then "doctor" else d.Type_ }

/-- `db.Model(&entities.Doctor{}).Create(&req)`: one INSERT into `doctors`.
Returns the struct as the ORM leaves it and the table with the new row
appended; fails on a connection error, on a column constraint, or when the
primary key `doctor_uid` is already present (tombstoned rows included). -/
def Create (fault : Option String) (now : Nat) (tbl : List Doctor) (req : Doctor) :
    Except String (Doctor × List Doctor) :=
  match fault with
  | some e => .error e
  | none =>
    let row := withDefaults now req
    match columnError row with
    | some e => .error e
    | none =>
      if tbl.any (fun r => r.Doctor_uid == row.Doctor_uid) then
        .error (duplicateKey row.Doctor_uid)
      else .ok (row, tbl ++ [row])

/-- Rows returned by
`SELECT user_name FROM patients WHERE user_name = ? UNION ALL
 SELECT user_name FROM doctors WHERE user_name = ?`, both sides under the
soft-delete scope. -/
def userNameRows (db : DB) (userName : String) : List String :=
  ((db.patients.filter (fun p => livePatient p && p.UserName == userName)).map
      (fun p => p.UserName)) ++
  ((db.doctors.filter (fun d => liveDoctor d && d.UserName == userName)).map
      (fun d => d.UserName))

/-- Rows returned by `SELECT user_name FROM doctors WHERE email = ?` under
the soft-delete scope. -/
def emailRows (db : DB) (email : String) : List String :=
  (db.doctors.filter (fun d => liveDoctor d && d.Email == email)).map
    (fun d => d.UserName)

/-- Rows found by `Where("doctor_uid = ?", uid).Find(..)`. -/
def findByUid (tbl : List Doctor) (uid : String) : List Doctor :=
  tbl.filter (fun d => liveDoctor d && d.Doctor_uid == uid)

end gorm

namespace shortuuid

/-- The loop `for { uid = shortuuid.New(); if no live row has it { break } }`:
draws candidates until one is free.  Returns the uid and the candidates
not yet drawn; `none` when every candidate supplied is taken, that is, the
loop has not ended yet. -/
def fresh (tbl : List Doctor) : List String → Option (String × List String)
  | [] => none
  | uid :: rest =>
    if (gorm.findByUid tbl uid).length = 0 then some (uid, rest) else fresh tbl rest

end shortuuid

namespace sql

/-!
Conditions given as SQL text

`GetProfile` and `GetAll` hand the ORM a condition as a string, which the
database parses.  The fragment of the grammar modelled here is

    cond    ::= cmp | cmp OR cond | cmp AND cond        (AND binds tighter)
    cmp     ::= operand = operand
    operand ::= column name | 'string literal'

with the quote doubled or a backslash as escapes inside a literal, and with
the comments of MySQL between tokens: from `#`, or from `--` followed by a
blank or control character, to the end of the line, and from `/*` to `*/`.
A line comment that is still open where the text ends goes on through
whatever the ORM appends to the text.  Text outside the fragment (other
operators, parentheses, numbers, the executable comments that start with
`/*!`) is answered with a syntax error.
-/

/-- The quote character that delimits an SQL string literal. -/
def quote : Char := Char.ofNat 39

/-- The backslash, the escape character inside a literal. -/
def backslash : Char := Char.ofNat 92

/-- The line feed, which ends a line comment. -/
def newline : Char := Char.ofNat 10

/-- The text of MySQL error 1064. -/
def syntaxError : String := "Error 1064: You have an error in your SQL syntax"

/-- Tokens of the fragment; `cut` marks a line comment that is open where
the text ends. -/
inductive Tok where
  | word (s : List Char)
  | str (s : List Char)
  | eq
  | cut
deriving DecidableEq

/-- State of the scanner. -/
inductive Scan where
  | idle
  | inWord (acc : List Char)
  | inStr (acc : List Char)
  | afterQuote (acc : List Char)
  | afterBackslash (acc : List Char)
  | dash
  | dashDash
  | lineComment
  | slash
  | blockOpen
  | blockComment
  | blockStar
deriving DecidableEq

/-- Characters of a name or keyword. -/
def isWordChar (c : Char) : Bool := c.isAlphanum || c == Char.ofNat 95

/-- White space between tokens: blank, tab, line feed, vertical tab, form
feed and carriage return. -/
def isSpace (c : Char) : Bool :=
  c == Char.ofNat 32 || (decide (9 ≤ c.toNat) && decide (c.toNat ≤ 13))

/-- One character read between tokens. -/
def idleStep (c : Char) : Option (Scan × List Tok) :=
  if isSpace c then some (Scan.idle, [])
  else if c == Char.ofNat 61 then some (Scan.idle, [Tok.eq])
  else if c == quote then some (Scan.inStr [], [])
  else if c == Char.ofNat 35 then some (Scan.lineComment, [])
  else if c == Char.ofNat 45 then some (Scan.dash, [])
  else if c == Char.ofNat 47 then some (Scan.slash, [])
  else if isWordChar c then some (Scan.inWord [c], [])
  else none

/-- The character a backslash escape stands for. -/
def unescape (c : Char) : List Char :=
  if c == Char.ofNat 110 then [Char.ofNat 10]
  else if c == Char.ofNat 116 then [Char.ofNat 9]
  else if c == Char.ofNat 114 then [Char.ofNat 13]
  else if c == Char.ofNat 48 then [Char.ofNat 0]
  else if c == Char.ofNat 98 then [Char.ofNat 8]
  else if c == Char.ofNat 90 then [Char.ofNat 26]
  else if c == Char.ofNat 37 || c == Char.ofNat 95 then [backslash, c]
  else [c]

/-- One step of the scanner: the next state and the tokens completed. -/
def step : Scan → Char → Option (Scan × List Tok)
  | Scan.idle, c => idleStep c
  | Scan.inWord acc, c =>
    if isWordChar c then some (Scan.inWord (acc ++ [c]), [])
    else (idleStep c).map (fun r => (r.1, Tok.word acc :: r.2))
  | Scan.inStr acc, c =>
    if c == quote then some (Scan.afterQuote acc, [])
    else if c == backslash then some (Scan.afterBackslash acc, [])
    else some (Scan.inStr (acc ++ [c]), [])
  | Scan.afterQuote acc, c =>
    if c == quote then some (Scan.inStr (acc ++ [quote]), [])
    else (idleStep c).map (fun r => (r.1, Tok.str acc :: r.2))
  | Scan.afterBackslash acc, c => some (Scan.inStr (acc ++ unescape c), [])
  | Scan.dash, c => if c == Char.ofNat 45 then some (Scan.dashDash, []) else none
  | Scan.dashDash, c =>
    if c == newline then some (Scan.idle, [])
    else if isSpace c || decide (c.toNat < 32) then some (Scan.lineComment, [])
    else none
  | Scan.lineComment, c =>
    if c == newline then some (Scan.idle, []) else some (Scan.lineComment, [])
  | Scan.slash, c => if c == Char.ofNat 42 then some (Scan.blockOpen, []) else none
  | Scan.blockOpen, c =>
    if c == Char.ofNat 33 then none
    else if c == Char.ofNat 42 then some (Scan.blockStar, [])
    else some (Scan.blockComment, [])
  | Scan.blockComment, c =>
    if c == Char.ofNat 42 then some (Scan.blockStar, []) else some (Scan.blockComment, [])
  | Scan.blockStar, c =>
    if c == Char.ofNat 47 then some (Scan.idle, [])
    else if c == Char.ofNat 42 then some (Scan.blockStar, [])
    else some (Scan.blockComment, [])

/-- Tokens completed by the end of the text.  A literal or a block comment
left open is an error, and so is a single dash; a line comment left open,
or `--` right at the end (the ORM appends a blank first), gives `cut`. -/
def finish : Scan → Option (List Tok)
  | Scan.idle => some []
  | Scan.inWord acc => some [Tok.word acc]
  | Scan.inStr _ => none
  | Scan.afterQuote acc => some [Tok.str acc]
  | Scan.afterBackslash _ => none
  | Scan.dash => none
  | Scan.dashDash => some [Tok.cut]
  | Scan.lineComment => some [Tok.cut]
  | Scan.slash => none
  | Scan.blockOpen => none
  | Scan.blockComment => none
  | Scan.blockStar => none

/-- The scanner. -/
def scan : Scan → List Char → Option (List Tok)
  | st, [] => finish st
  | st, c :: cs =>
    match step st c with
    | none => none
    | some (st1, ts) => (scan st1 cs).map (fun r => ts ++ r)

/-- The state of the scanner after a text, with the tokens completed so
far. -/
def scanState : Scan → List Char → Option (Scan × List Tok)
  | st, [] => some (st, [])
  | st, c :: cs =>
    match step st c with
    | none => none
    | some (st1, ts) => (scanState st1 cs).map (fun r => (r.1, ts ++ r.2))

/-- The tokens of a scanned text that are code. -/
def code (ts : List Tok) : List Tok := ts.filter (fun t => !(t == Tok.cut))

/-- Whether a scanned text ends inside a line comment. -/
def endsInComment (ts : List Tok) : Bool := ts.getLast? == some Tok.cut

/-- An operand of a comparison. -/
inductive Operand where
  | col (name : String)
  | lit (s : String)
deriving DecidableEq

/-- A comparison `lhs = rhs`. -/
structure Cmp where
  lhs : Operand
  rhs : Operand
deriving DecidableEq

/-- The keywords `OR` and `AND`, in either case. -/
def isOr (w : List Char) : Bool := w.map Char.toLower == "or".data

/-- See `isOr`. -/
def isAnd (w : List Char) : Bool := w.map Char.toLower == "and".data

/-- A token read as an operand. -/
def operand : Tok → Option Operand
  | Tok.word w => if isOr w || isAnd w then none else some (Operand.col (String.mk w))
  | Tok.str s => some (Operand.lit (String.mk s))
  | Tok.eq => none
  | Tok.cut => none

/-- The parser: a disjunction of conjunctions of comparisons. -/
def parse : List Tok → Option (List (List Cmp))
  | [a, Tok.eq, b] =>
    match operand a, operand b with
    | some x, some y => some [[⟨x, y⟩]]
    | _, _ => none
  | a :: Tok.eq :: b :: Tok.word w :: rest =>
    match operand a, operand b, parse rest with
    | some x, some y, some (g :: gs) =>
      if isOr w then some ([⟨x, y⟩] :: g :: gs)
      else if isAnd w then some ((⟨x, y⟩ :: g) :: gs)
      else none
    | _, _, _ => none
  | _ => none

/-- The string columns of `doctors` by their SQL names. -/
def column (d : Doctor) (name : String) : Option String :=
  if name = "doctor_uid" then some d.Doctor_uid
  else if name = "doctor_uid_ref" then some d.Doctor_uid_ref
  else if name = "user_name" then some d.UserName
  else if name = "email" then some d.Email
  else if name = "password" then some d.Password
  else if name = "name" then some d.Name
  else if name = "image" then some d.Image
  else if name = "address" then some d.Address
  else if name = "status" then some d.Status
  else if name = "open_day" then some d.OpenDay
  else if name = "close_day" then some d.CloseDay
  else if name = "type" then some d.Type_
  else none

/-- Value of an operand on a row; `none` for an unknown column. -/
def value (d : Doctor) : Operand → Option String
  | Operand.col n => column d n
  | Operand.lit s => some s

/-- Whether the names of a comparison are columns of the table. -/
def Cmp.known (c : Cmp) : Bool :=
  (value gorm.zeroDoctor c.lhs).isSome && (value gorm.zeroDoctor c.rhs).isSome

/-- Truth of a comparison on a row. -/
def Cmp.holds (c : Cmp) (d : Doctor) : Bool :=
  match value d c.lhs, value d c.rhs with
  | some x, some y => x == y
  | _, _ => false

/-- Truth of a parsed condition on a row. -/
def holds (cond : List (List Cmp)) (d : Doctor) : Bool :=
  cond.any (fun g => g.all (fun c => c.holds d))

/-- The text of a condition, parsed and checked against the columns. -/
def compile (text : String) : Except String (List (List Cmp)) :=
  match (scan Scan.idle text.data).bind (fun ts => parse (code ts)) with
  | none => .error syntaxError
  | some cond =>
    if cond.all (fun g => g.all Cmp.known) then .ok cond
    else .error "Error 1054: Unknown column in 'where clause'"

/-- Whether the text ends inside a line comment, which then takes in what
is appended to the text. -/
def cutsTail (text : String) : Bool :=
  match scan Scan.idle text.data with
  | none => false
  | some ts => endsInComment ts

/-- Whether `needle` occurs in `hay` as a run of consecutive characters. -/
def occursIn (needle : List Char) : List Char → Bool
  | [] => needle.isEmpty
  | c :: cs => needle.isPrefixOf (c :: cs) || occursIn needle cs

/-- The test `clause.Where` makes on a text condition before it joins it
with another condition: the text in upper case contains `" AND "` or
`" OR "`.  A text that passes is put in parentheses. -/
def wrapped (text : String) : Bool :=
  occursIn " AND ".data (text.data.map Char.toUpper) ||
    occursIn " OR ".data (text.data.map Char.toUpper)

/-- A text that the scanner reads as the body of one literal: it has no
quote and no backslash. -/
def plain (s : String) : Bool :=
  s.data.all (fun c => !(c == quote) && !(c == backslash))

end sql

namespace gorm

/-- `Where(text)` with the condition given as SQL text and no bound
argument, followed by a SELECT under the soft-delete scope.  The statement
sent is `.. WHERE text AND deleted_at IS NULL`, with `text` in parentheses
when `sql.wrapped text`.  So the scope applies to the whole condition when
the text is in parentheses, and otherwise to its last disjunct only, AND
binding tighter than OR.  A line comment open at the end of the text takes
in the rest of the statement: the scope is dropped, or, when the text is
in parentheses, the closing one is lost and the statement is an error.
An empty text adds no condition. -/
def whereText (tbl : List Doctor) (text : String) : Except String (List Doctor) :=
  if text = "" then .ok (tbl.filter liveDoctor)
  else
    match sql.compile text with
    | .error e => .error e
    | .ok cond =>
      if sql.wrapped text then
        if sql.cutsTail text then .error sql.syntaxError
        else .ok (tbl.filter (fun d => liveDoctor d && sql.holds cond d))
      else if sql.cutsTail text then .ok (tbl.filter (fun d => sql.holds cond d))
      else .ok (tbl.filter (fun d =>
        sql.holds cond.dropLast d ||
          (liveDoctor d && sql.holds (cond.drop (cond.length - 1)) d)))

/-- The assignment `Updates(values)` makes to one row: every non-zero
field of `values` replaces the stored one, and `updated_at` takes the
clock. -/
def assign (now : Nat) (values row : Doctor) : Doctor :=
  { CreatedAt := if values.CreatedAt = 0 then row.CreatedAt else values.CreatedAt
    UpdatedAt := now
    DeletedAt := if values.DeletedAt = none then row.DeletedAt else values.DeletedAt
    Doctor_uid := if values.Doctor_uid = "" then row.Doctor_uid else values.Doctor_uid
    Doctor_uid_ref :=
      if values.Doctor_uid_ref = "" then row.Doctor_uid_ref else values.Doctor_uid_ref
    UserName := if values.UserName = "" then row.UserName else values.UserName
    Email := if values.Email = "" then row.Email else values.Email
    Password := if values.Password = "" then row.Password else values.Password
    Name := if values.Name = "" then row.Name else values.Name
    Image := if values.Image = "" then row.Image else values.Image
    Address := if values.Address = "" then row.Address else values.Address
    Status := if values.Status = "" then row.Status else values.Status
    OpenDay := if values.OpenDay = "" then row.OpenDay else values.OpenDay
    CloseDay := if values.CloseDay = "" then row.CloseDay else values.CloseDay
    Capacity := if values.Capacity = 0 then row.Capacity else values.Capacity
    Type_ := if values.Type_ = "" then row.Type_ else values.Type_ }

/-- `Model(&entities.Doctor{}).Where("doctor_uid = ?", uid).Updates(values)`:
one UPDATE under the soft-delete scope.  Returns `RowsAffected` and the
table afterwards.  With no matching row nothing is assigned and nothing
can fail but the connection; otherwise the assigned values must satisfy
the column constraints. -/
def Updates (fault : Option String) (now : Nat) (tbl : List Doctor) (uid : String)
    (values : Doctor) : Except String (Nat × List Doctor) :=
  match fault with
  | some e => .error e
  | none =>
    if (findByUid tbl uid).length = 0 then .ok (0, tbl)
    else
      match columnError values with
      | some e => .error e
      | none =>
        .ok ((findByUid tbl uid).length,
          tbl.map (fun d =>
            if liveDoctor d && d.Doctor_uid == uid then assign now values d else d))

/-- `Model(&entities.Doctor{}).Where("doctor_uid = ?", uid).Delete(&dest)`
on a model with a `DeletedAt` field: an UPDATE that sets `deleted_at` on
the live rows matched.  Returns `RowsAffected` and the table afterwards. -/
def Delete (fault : Option String) (now : Nat) (tbl : List Doctor) (uid : String) :
    Except String (Nat × List Doctor) :=
  match fault with
  | some e => .error e
  | none =>
    .ok ((findByUid tbl uid).length,
      tbl.map (fun d =>
        if liveDoctor d && d.Doctor_uid == uid then { d with DeletedAt := some now } else d))

/-- A transaction: the committed database and the view inside the
transaction. -/
structure Tx where
  committed : DB
  pending : DB

/-- `db.Begin()`; the error is what `tx.Error` holds. -/
def Begin (fault : Option String) (db : DB) : Except String Tx :=
  match fault with
  | some e => .error e
  | none => .ok { committed := db, pending := db }

/-- `tx.Rollback()`: the committed database stays as it was. -/
def Tx.Rollback (tx : Tx) : DB := tx.committed

/-- `tx.Commit()`: the error, if any, and the committed database. -/
def Tx.Commit (fault : Option String) (tx : Tx) : Option String × DB :=
  match fault with
  | some e => (some e, tx.committed)
  | none => (none, tx.pending)

end gorm

namespace Repo

/-- Modelled from the spec: the declaration of `ProfileResp` is not among
the sources; its fields are the aliases of the SELECT list in
`GetProfile`. -/
structure ProfileResp where
  Doctor_uid : String
  UserName : String
  Email : String
  Name : String
  Image : String
  Address : String
  Status : String
  OpenDay : String
  CloseDay : String
  Capacity : Int
  Doctor_uid_ref : String
deriving DecidableEq

/-- Modelled from the spec: the declaration of `All` is not among the
sources; `GetAll` fills its field `Doctors` from the doctor table, here
with one profile per row. -/
structure All where
  Doctors : List ProfileResp
deriving DecidableEq

/-- The SELECT list of `GetProfile` applied to a row. -/
def profileOf (d : Doctor) : ProfileResp :=
  { Doctor_uid := d.Doctor_uid, UserName := d.UserName, Email := d.Email,
    Name := d.Name, Image := d.Image, Address := d.Address, Status := d.Status,
    OpenDay := d.OpenDay, CloseDay := d.CloseDay, Capacity := d.Capacity,
    Doctor_uid_ref := d.Doctor_uid_ref }

/-- `Repo.Create`: registers a doctor and the paired admin account.  The
result is `none` when a uid loop has not ended on the candidates of
`env.uids`; otherwise the Go result and the database afterwards. -/
def Create (env : Env) (db : DB) (req : Doctor) : Option (Except String Doctor × DB) :=
  if (gorm.userNameRows db req.UserName).length ≠ 0 then
    some (.error "user name is already exist", db)
  else if (gorm.emailRows db req.Email).length ≠ 0 then
    some (.error "email is already exist", db)
  else
    match shortuuid.fresh db.doctors env.uids with
    | none => none
    | some (uid, uids) =>
      let req := { req with Doctor_uid := uid, Doctor_uid_ref := uid }
      match env.HashPassword req.Password with
      | .error _ => some (.error "error in hash password", db)
      | .ok hashed =>
        let req := { req with Password := hashed, Type_ := "doctor" }
        match gorm.Create (env.dbFault Op.insertDoctor) env.now db.doctors req with
        | .error e => some (.error e, db)
        | .ok (req, doctors1) =>
          let db1 := { db with doctors := doctors1 }
          let reqDoctor := req
          let req := { req with Type_ := "admin", UserName := "admin" ++ req.UserName }
          match shortuuid.fresh db1.doctors uids with
          | none => none
          | some (uid, _) =>
            let req := { req with Doctor_uid := uid }
            match gorm.Create (env.dbFault Op.insertAdmin) env.now db1.doctors req with
            | .error e => some (.error e, db1)
            | .ok (_, doctors2) => some (.ok reqDoctor, { db1 with doctors := doctors2 })

/-- The request password as `Update` passes it on: hashed when it is not
empty. -/
def hashIfSet (env : Env) (password : String) : Except String String :=
  if password ≠ "" then env.HashPassword password else .ok password

/-- `Repo.Update`: the Go result and the committed database afterwards. -/
def Update (env : Env) (db : DB) (doctor_uid : String) (req : Doctor) :
    Except String Doctor × DB :=
  match gorm.Begin (env.dbFault Op.begin) db with
  | .error e => (.error e, db)
  | .ok tx =>
    let resInit := gorm.zeroDoctor
    if (gorm.userNameRows tx.pending req.UserName).length ≠ 0 ∧ req.UserName ≠ "" then
      (.error "user name is already exist", tx.Rollback)
    else if (gorm.emailRows db req.Email).length ≠ 0 ∧ req.Email ≠ "" then
      (.error "email is already exist", tx.Rollback)
    else
      match hashIfSet env req.Password with
      | .error _ => (.error "error in hash password", tx.committed)
      | .ok password =>
        let req := { req with Password := password }
        match gorm.Updates (env.dbFault Op.update) env.now tx.pending.doctors doctor_uid
            { gorm.zeroDoctor with
              UserName := req.UserName, Email := req.Email, Password := req.Password,
              Name := req.Name, Image := req.Image, Address := req.Address,
              Status := req.Status, OpenDay := req.OpenDay, CloseDay := req.CloseDay,
              Capacity := req.Capacity } with
        | .error e => (.error e, tx.Rollback)
        | .ok (rowsAffected, doctors1) =>
          if rowsAffected = 0 then (.error gorm.ErrRecordNotFound, tx.Rollback)
          else
            let tx1 : gorm.Tx := { tx with pending := { tx.pending with doctors := doctors1 } }
            match tx1.Commit (env.dbFault Op.commit) with
            | (some e, db1) => (.error e, db1)
            | (none, db1) => (.ok resInit, db1)

/-- `Repo.Delete`: the Go result and the database afterwards. -/
def Delete (env : Env) (db : DB) (doctor_uid : String) : Except String Doctor × DB :=
  match gorm.Delete (env.dbFault Op.delete) env.now db.doctors doctor_uid with
  | .error _ => (.error gorm.ErrRecordNotFound, db)
  | .ok (rowsAffected, doctors1) =>
    if rowsAffected = 0 then (.error gorm.ErrRecordNotFound, db)
    else (.ok { gorm.zeroDoctor with DeletedAt := some env.now }, { db with doctors := doctors1 })

/-- The condition text `GetProfile` builds from its arguments. -/
def profileCondition (doctor_uid userName email : String) : String :=
  if doctor_uid ≠ "" then "doctor_uid = '" ++ doctor_uid ++ "'"
  else if userName ≠ "" then "user_name = '" ++ userName ++ "'"
  else if email ≠ "" then "email = '" ++ email ++ "'"
  else doctor_uid

/-- `Repo.GetProfile`: the first row selected, as a profile. -/
def GetProfile (db : DB) (doctor_uid userName email : String) : Except String ProfileResp :=
  match gorm.whereText db.doctors (profileCondition doctor_uid userName email) with
  | .error _ => .error gorm.ErrRecordNotFound
  | .ok [] => .error gorm.ErrRecordNotFound
  | .ok (d :: _) => .ok (profileOf d)

/-- `Repo.GetAll`: the profiles of the live rows of type doctor. -/
def GetAll (db : DB) : Except String All :=
  match gorm.whereText db.doctors "type = 'doctor'" with
  | .error e => .error e
  | .ok rows => .ok { Doctors := rows.map profileOf }

end Repo

/-! ## Rows written by `Create` -/

namespace Repo

/-- The doctor row `Create` inserts for a request, given the uid drawn and
the hash of the password. -/
def doctorRow (env : Env) (req : Doctor) (uid hashed : String) : Doctor :=
  gorm.withDefaults env.now
    { req with Doctor_uid := uid, Doctor_uid_ref := uid, Password := hashed, Type_ := "doctor" }

/-- The values `Update` hands to `Updates`: the ten fields of the request
it copies, the password being the one already hashed. -/
def updateValues (req : Doctor) (password : String) : Doctor :=
  { gorm.zeroDoctor with
    UserName := req.UserName, Email := req.Email, Password := password,
    Name := req.Name, Image := req.Image, Address := req.Address,
    Status := req.Status, OpenDay := req.OpenDay, CloseDay := req.CloseDay,
    Capacity := req.Capacity }

/-- The admin row `Create` inserts next to a doctor row, given its uid. -/
def adminRow (env : Env) (doc : Doctor) (uid : String) : Doctor :=
  gorm.withDefaults env.now
    { doc with Type_ := "admin", UserName := "admin" ++ doc.UserName, Doctor_uid := uid }

end Repo

/-! ## The login handler (`delivery/controllers/auth/auth.go`) -/

namespace http

/-- The constant `http.StatusOK`. -/
def StatusOK : Nat := 200

/-- The constant `http.StatusBadRequest`. -/
def StatusBadRequest : Nat := 400

/-- The constant `http.StatusNotAcceptable`. -/
def StatusNotAcceptable : Nat := 406

/-- The constant `http.StatusInternalServerError`. -/
def StatusInternalServerError : Nat := 500

end http

namespace golang

/-- A Go value held in an `interface{}`, as far as the handlers meet one:
`nil`, a string, a number or a boolean. -/
inductive Value where
  | nil
  | str (s : String)
  | num (n : Int)
  | bool (b : Bool)
deriving DecidableEq

/-- A Go `map[string]interface{}`: the entries, the first of a key being
the one the map holds. -/
abbrev Map := List (String × Value)

/-- The index expression `m[key]`: `nil` for a key that is not there. -/
def Map.index (m : Map) (key : String) : Value :=
  match m.lookup key with
  | some v => v
  | none => Value.nil

/-- The type assertion `v.(string)`: `none` stands for the run-time panic
on a value that is not a string. -/
def Value.assertString : Value → Option String
  | Value.str s => some s
  | _ => none

end golang

namespace templates

/-- What a handler passes as the data of a response: nothing, an error, or
a map. -/
inductive Data where
  | nil
  | error (message : String)
  | object (fields : golang.Map)
deriving DecidableEq

/-- Modelled from the spec: the package `delivery/controllers/templates`
is not among the sources.  A response body is the envelope
`{code, message, data}`. -/
structure Envelope where
  code : Nat
  message : String
  data : Data
deriving DecidableEq

/-- Modelled from the spec: `templates.BadRequest(code, message, data)`
fills the envelope, the code being 400 when `nil` is passed. -/
def BadRequest (code : Option Nat) (message : String) (data : Data) : Envelope :=
  { code := code.getD http.StatusBadRequest, message := message, data := data }

/-- Modelled from the spec: `templates.InternalServerError(code, message,
data)` fills the envelope, the code being 500 when `nil` is passed. -/
def InternalServerError (code : Option Nat) (message : String) (data : Data) : Envelope :=
  { code := code.getD http.StatusInternalServerError, message := message, data := data }

/-- Modelled from the spec: `templates.Success(code, message, data)` fills
the envelope, the code being 200 when `nil` is passed. -/
def Success (code : Option Nat) (message : String) (data : Data) : Envelope :=
  { code := code.getD http.StatusOK, message := message, data := data }

end templates

namespace AuthController

/-- Modelled from the spec: the declaration of `Userlogin` is not among
the sources; `Login` reads its fields `UserName` and `Password`. -/
structure Userlogin where
  UserName : String
  Password : String
deriving DecidableEq

/-- The outcome of `c.Bind(&Userlogin)`: the struct as binding leaves it
and the error, if any. -/
structure Bound where
  Userlogin : Userlogin
  err : Option String
deriving DecidableEq

/-- A call the handler makes to what it was given. -/
inductive Call where
  | Login (userName password : String)
  | GenerateToken (data type_ : String)
deriving DecidableEq

/-- How a run of the handler ends: with `c.JSON(status, body)`, or with a
run-time panic. -/
inductive Outcome where
  | JSON (status : Nat) (body : templates.Envelope)
  | panicked
deriving DecidableEq

/-- A run of the handler: how it ends and the calls it made, in order. -/
structure Run where
  outcome : Outcome
  calls : List Call
deriving DecidableEq

/-- The error `err` as the data of a response. -/
def errData : Option String → templates.Data
  | none => templates.Data.nil
  | some e => templates.Data.error e

/-- The message the handler answers for an error of the repository: the
`switch err.Error()` of `Login`. -/
def loginMessage (e : String) : String :=
  if e = "incorrect password" then "incorrect password"
  else if e = "record not found" then "account is not found"
  else "there's some problem is server"

/-- `AuthController.Login`, the handler.  `repo` is the method `Login` of
the repository `auth.Auth` and `GenerateToken` the function of the package
`middlewares`, neither among the sources. -/
def Login (repo : String → String → Except String golang.Map)
    (GenerateToken : String → String → Except String String) (bound : Bound) : Run :=
  let Userlogin := bound.Userlogin
  if bound.err ≠ none ∨ Userlogin.UserName = "" ∨ Userlogin.Password = "" then
    { outcome := Outcome.JSON http.StatusBadRequest
        (templates.BadRequest none "invalid email or password" (errData bound.err))
      calls := [] }
  else
    let calls1 := [Call.Login Userlogin.UserName Userlogin.Password]
    match repo Userlogin.UserName Userlogin.Password with
    | .error e =>
      { outcome := Outcome.JSON http.StatusInternalServerError
          (templates.InternalServerError none (loginMessage e) templates.Data.nil)
        calls := calls1 }
    | .ok checkedUser =>
      match (checkedUser.index "data").assertString with
      | none => { outcome := Outcome.panicked, calls := calls1 }
      | some data =>
        match (checkedUser.index "type").assertString with
        | none => { outcome := Outcome.panicked, calls := calls1 }
        | some type_ =>
          let calls2 := calls1 ++ [Call.GenerateToken data type_]
          match GenerateToken data type_ with
          | .error _ =>
            { outcome := Outcome.JSON http.StatusNotAcceptable
                (templates.BadRequest (some http.StatusNotAcceptable)
                  "there's some problem is server" templates.Data.nil)
              calls := calls2 }
          | .ok token =>
            match (checkedUser.index "type").assertString with
            | none => { outcome := Outcome.panicked, calls := calls2 }
            | some type2 =>
              match (checkedUser.index "doctor_uid").assertString with
              | none => { outcome := Outcome.panicked, calls := calls2 }
              | some doctor_uid =>
                { outcome := Outcome.JSON http.StatusOK
                    (templates.Success none "success login"
                      (templates.Data.object
                        [("type", golang.Value.str type2),
                         ("doctor_uid", golang.Value.str doctor_uid),
                         ("token", golang.Value.str token)]))
                  calls := calls2 }

end AuthController

/-! ## The doctor handlers (`delivery/controllers/doctor`) -/

namespace DoctorController

/-- The repository as the handlers see it: the interface that the stubs of
`doctor_test.go` implement. -/
structure Repository where
  Create : Doctor → Except String Doctor
  Update : String → Doctor → Except String Doctor
  Delete : String → Except String Doctor
  GetProfile : String → String → String → Except String Repo.ProfileResp
  GetAll : Except String Repo.All

/-- The file store as the handlers see it (`mockTaskS3M` in the tests); a
file is given by its name. -/
structure TaskS3 where
  UploadFileToS3 : String → Except String String
  UpdateFileS3 : String → String → String
  DeleteFileS3 : String → String

/-- The validators as the handlers see them (`successLogic` in the tests):
each returns its error, if any. -/
structure Logic where
  ValidationRequest : Doctor → Option String
  ValidationStruct : Doctor → Option String

/-- What a handler reads from the HTTP request: the outcome of binding the
body, the file attached, the uid of the bearer token, and the query
parameters. -/
structure Request where
  bound : Except String Doctor
  file : Option String
  doctor_uid : String
  userName : String
  email : String

/-- Modelled from the spec: the handlers of `delivery/controllers/doctor`
are not among the sources, only their tests are.  A success is answered
with the code that the tests of the handler assert: 201. -/
def createdCode : Nat := 201

/-- Modelled from the spec: see `createdCode`; the code of a successful
`Update` or `Delete`. -/
def acceptedCode : Nat := 202

/-- Modelled from the spec: the code a handler answers for an error of the
repository.  The message of the error is matched against the known
strings to choose the message of the response; the code is 500 for each of
them, as for the login handler and as every test of a failing repository
asserts. -/
def repositoryErrorCode (_message : String) : Nat := http.StatusInternalServerError

/-- Modelled from the spec: the handler `Create` of the doctor controller,
which is not among the sources; the result is the code of the envelope it
answers.  It binds the request, validates it, stores the attached file if
there is one, and calls `Create` of the repository. -/
def Create (repo : Repository) (s3 : TaskS3) (logic : Logic) (r : Request) : Nat :=
  match r.bound with
  | .error _ => http.StatusBadRequest
  | .ok req =>
    if (logic.ValidationStruct req).isSome then http.StatusBadRequest
    else if (logic.ValidationRequest req).isSome then http.StatusBadRequest
    else
      match r.file with
      | none =>
        match repo.Create req with
        | .error e => repositoryErrorCode e
        | .ok _ => createdCode
      | some file =>
        match s3.UploadFileToS3 file with
        | .error _ => http.StatusInternalServerError
        | .ok link =>
          match repo.Create { req with Image := link } with
          | .error e => repositoryErrorCode e
          | .ok _ => createdCode

/-- Modelled from the spec: the handler `Update` of the doctor controller,
which is not among the sources; the result is the code of the envelope it
answers.  It binds and validates the request; with a file attached it
reads the profile for the current image and stores the file, as a new one
when the image is the default and over the old one otherwise; then it
calls `Update` of the repository. -/
def Update (repo : Repository) (s3 : TaskS3) (logic : Logic) (r : Request) : Nat :=
  match r.bound with
  | .error _ => http.StatusBadRequest
  | .ok req =>
    if (logic.ValidationRequest req).isSome then http.StatusBadRequest
    else
      match r.file with
      | none =>
        match repo.Update r.doctor_uid req with
        | .error e => repositoryErrorCode e
        | .ok _ => acceptedCode
      | some file =>
        match repo.GetProfile r.doctor_uid "" "" with
        | .error e => repositoryErrorCode e
        | .ok profile =>
          if profile.Image = gorm.defaultImage then
            match s3.UploadFileToS3 file with
            | .error _ => http.StatusInternalServerError
            | .ok link =>
              match repo.Update r.doctor_uid { req with Image := link } with
              | .error e => repositoryErrorCode e
              | .ok _ => acceptedCode
          else if s3.UpdateFileS3 profile.Image file ≠ "success" then
            http.StatusInternalServerError
          else
            match repo.Update r.doctor_uid req with
            | .error e => repositoryErrorCode e
            | .ok _ => acceptedCode

/-- Modelled from the spec: the handler `Delete` of the doctor controller,
which is not among the sources; the result is the code of the envelope it
answers.  It calls `Delete` of the repository; what the file store answers
to the removal of the image does not change the response. -/
def Delete (repo : Repository) (_s3 : TaskS3) (_logic : Logic) (r : Request) : Nat :=
  match repo.Delete r.doctor_uid with
  | .error e => repositoryErrorCode e
  | .ok _ => acceptedCode

/-- Modelled from the spec: the handler `GetProfile` of the doctor
controller, which is not among the sources; the result is the code of the
envelope it answers. -/
def GetProfile (repo : Repository) (_s3 : TaskS3) (_logic : Logic) (r : Request) : Nat :=
  match repo.GetProfile r.doctor_uid "" "" with
  | .error e => repositoryErrorCode e
  | .ok _ => http.StatusOK

/-- Modelled from the spec: the handler `GetCheck` of the doctor
controller, which is not among the sources; the result is the code of the
envelope it answers.  It looks a profile up by user name or email. -/
def GetCheck (repo : Repository) (_s3 : TaskS3) (_logic : Logic) (r : Request) : Nat :=
  match repo.GetProfile "" r.userName r.email with
  | .error e => repositoryErrorCode e
  | .ok _ => http.StatusOK

/-- Modelled from the spec: the handler `GetAll` of the doctor controller,
which is not among the sources; the result is the code of the envelope it
answers. -/
def GetAll (repo : Repository) (_s3 : TaskS3) (_logic : Logic) (_r : Request) : Nat :=
  match repo.GetAll with
  | .error e => repositoryErrorCode e
  | .ok _ => http.StatusOK

end DoctorController

/-! ## Predicates of the specification -/

namespace Spec

/-- The user names of the live rows of the patient table and of the doctor
table, one entry per row. -/
def userNames (db : DB) : List String :=
  (db.patients.filter gorm.livePatient).map (fun p => p.UserName) ++
  (db.doctors.filter gorm.liveDoctor).map (fun d => d.UserName)

/-- The emails of the live rows of the doctor table, one entry per row. -/
def emails (tbl : List Doctor) : List String :=
  (tbl.filter gorm.liveDoctor).map (fun d => d.Email)

/-- Live rows of the doctor table share an email only when they are
paired, that is, carry the same `Doctor_uid_ref`. -/
abbrev emailsSharedInPairsOnly (tbl : List Doctor) : Prop :=
  (tbl.filter gorm.liveDoctor).Pairwise
    (fun a b => a.Email = b.Email → a.Doctor_uid_ref = b.Doctor_uid_ref)

/-- The number of live visits of a doctor that are in status "waiting". -/
def pendingVisits (db : DB) (doctor_uid : String) : Nat :=
  (db.visits.filter (fun v =>
    v.DeletedAt.isNone && v.Doctor_uid == doctor_uid && v.Status == "waiting")).length

end Spec

/-! ## Sample data used to exercise the theorems -/

namespace Sample

/-- An environment in which nothing fails. -/
def env : Env :=
  { now := 1650000000
    uids := ["Jc3T7nDmE2rVxq9WbKfLsA", "pQ8sYt4GhZ6uMe2RkNw5Bd"]
    HashPassword := fun p => .ok ("$2a$14$" ++ p)
    dbFault := fun _ => none }

/-- The empty database. -/
def emptyDb : DB := { doctors := [], patients := [], visits := [] }

/-- A registration request. -/
def req : Doctor :=
  { gorm.zeroDoctor with
    UserName := "drbob", Email := "bob@clinic.id", Password := "secret",
    Name := "Bob", Address := "Malang", Capacity := 50 }

/-- The doctor row stored for `req` in `env`. -/
def bob : Doctor :=
  { CreatedAt := 1650000000, UpdatedAt := 1650000000, DeletedAt := none,
    Doctor_uid := "Jc3T7nDmE2rVxq9WbKfLsA", Doctor_uid_ref := "Jc3T7nDmE2rVxq9WbKfLsA",
    UserName := "drbob", Email := "bob@clinic.id", Password := "$2a$14$secret",
    Name := "Bob", Image := gorm.defaultImage, Address := "Malang", Status := "available",
    OpenDay := "senin", CloseDay := "senin", Capacity := 50, Type_ := "doctor" }

/-- The admin row stored next to `bob`. -/
def bobAdmin : Doctor :=
  { bob with Doctor_uid := "pQ8sYt4GhZ6uMe2RkNw5Bd", UserName := "admindrbob", Type_ := "admin" }

/-- The database after `req` was registered in the empty one. -/
def bobDb : DB := { doctors := [bob, bobAdmin], patients := [], visits := [] }

/-- A patient who uses the email address of `req`. -/
def patient : Patient :=
  { CreatedAt := 1640000000, UpdatedAt := 1640000000, DeletedAt := none,
    Patient_uid := "Tz5LmW8cQ3nHs7KdVb2XyR", UserName := "robert", Email := "bob@clinic.id",
    Password := "$2a$14$hunter2", Nik := "3507112209900001", Name := "Robert" }

/-- A database that holds `patient` and no doctor. -/
def patientDb : DB := { doctors := [], patients := [patient], visits := [] }

/-- A second request, under another user name but with the email of `req`. -/
def req2 : Doctor :=
  { gorm.zeroDoctor with
    UserName := "drbobby", Email := "bob@clinic.id", Password := "secret2", Name := "Bobby" }

/-- An update request: a new user name and password, no email. -/
def rename : Doctor :=
  { gorm.zeroDoctor with UserName := "drbobby", Password := "secret2", Name := "Bobby" }

/-- A patient whose user name is "admin" followed by the user name of `req`. -/
def namesake : Patient :=
  { patient with
    Patient_uid := "Wq6RnB3kTz8LmH5cVs2XyD", UserName := "admindrbob",
    Email := "namesake@mail.id" }

/-- A database that holds `namesake` and no doctor. -/
def namesakeDb : DB := { doctors := [], patients := [namesake], visits := [] }

/-- The request `req` with a negative capacity. -/
def negativeReq : Doctor := { req with Capacity := -5 }

/-- A visit to `bob` of the given uid and status. -/
def visit (uid status : String) : Visit :=
  { CreatedAt := 1650000100, UpdatedAt := 1650000100, DeletedAt := none, Visit_uid := uid,
    Doctor_uid := "Jc3T7nDmE2rVxq9WbKfLsA", Clinic_uid := "", Patient_uid := "Tz5LmW8cQ3nHs7KdVb2XyR",
    Date := 19100, Status := status }

/-- The database `bobDb` with three visits to `bob` waiting and one done. -/
def busyDb : DB :=
  { bobDb with
    visits := [visit "v1" "waiting", visit "v2" "waiting", visit "v3" "done",
      visit "v4" "waiting"] }

/-- An environment whose clock is later than that of `env`. -/
def later : Env := { env with now := 1650000500 }

/-- An environment in which hashing fails. -/
def noHash : Env :=
  { later with HashPassword := fun _ => .error "bcrypt: password length exceeds 72 bytes" }

/-- The database `bobDb` after the doctor row was deleted at the time of
`later`. -/
def deletedDb : DB :=
  { bobDb with doctors := [{ bob with DeletedAt := some 1650000500 }, bobAdmin] }

/-- An update request that sets a new password only. -/
def newPassword : Doctor := { gorm.zeroDoctor with Password := "s3cret" }

/-- An update request under the user name the row of `bob` already has. -/
def sameName : Doctor := { gorm.zeroDoctor with UserName := "drbob", Name := "Robert" }

/-- An update request under the email the row of `bob` already has. -/
def sameEmail : Doctor := { gorm.zeroDoctor with Email := "bob@clinic.id", Name := "Robert" }

/-- The repository stub `MockAuthLib` of `doctor_test.go`. -/
def mockAuthLib (_userName _password : String) : Except String golang.Map :=
  .ok [("data", golang.Value.str "abc"), ("doctor_uid", golang.Value.str "abcde"),
       ("type", golang.Value.str "clinic")]

/-- The repository stub `MockAuthLib` of `visit_test.go`: no entry
"doctor_uid". -/
def mockAuthVisit (_userName _password : String) : Except String golang.Map :=
  .ok [("data", golang.Value.str "abc"), ("type", golang.Value.str "clinic")]

/-- A repository whose `Login` fails with the given message. -/
def failingAuth (message : String) (_userName _password : String) :
    Except String golang.Map :=
  .error message

/-- A token generator that succeeds. -/
def generateToken (data type_ : String) : Except String String :=
  .ok ("jwt:" ++ data ++ ":" ++ type_)

/-- A token generator that fails. -/
def failingToken (_data _type : String) : Except String String :=
  .error "key is of invalid type"

/-- The login request of the tests, bound without error. -/
def loginBound : AuthController.Bound :=
  { Userlogin := { UserName := "anonim@123", Password := "anonim123" }, err := none }

/-- A login request without password. -/
def noPassword : AuthController.Bound :=
  { Userlogin := { UserName := "anonim@123", Password := "" }, err := none }

/-- The repository stub `mockSuccess` of `doctor_test.go`. -/
def mockSuccess : DoctorController.Repository :=
  { Create := fun _ => .ok { gorm.zeroDoctor with Doctor_uid := "abcde" }
    Update := fun _ _ => .ok gorm.zeroDoctor
    Delete := fun _ => .ok gorm.zeroDoctor
    GetProfile := fun _ _ _ =>
      .ok { Repo.profileOf gorm.zeroDoctor with
            Image := "https://karen-givi-bucket.s3.ap-southeast-1.amazonaws.com/testing" }
    GetAll := .ok { Doctors := [] } }

/-- A repository stub every method of which fails with the given message,
as `mockFail`, `createUserName` or `recordNotFound` of `doctor_test.go`
do. -/
def mockError (message : String) : DoctorController.Repository :=
  { Create := fun _ => .error message
    Update := fun _ _ => .error message
    Delete := fun _ => .error message
    GetProfile := fun _ _ _ => .error message
    GetAll := .error message }

/-- The file store stub `mockTaskS3M` of `doctor_test.go`. -/
def mockTaskS3M : DoctorController.TaskS3 :=
  { UploadFileToS3 := fun _ => .ok ""
    UpdateFileS3 := fun _ _ => "success"
    DeleteFileS3 := fun _ => "success" }

/-- The validator stub `successLogic` of `doctor_test.go`. -/
def successLogic : DoctorController.Logic :=
  { ValidationRequest := fun _ => none, ValidationStruct := fun _ => none }

/-- A request to a doctor handler: the body of the tests bound without
error, a photo attached, the uid of the token of the tests. -/
def upload : DoctorController.Request :=
  { bound := .ok { gorm.zeroDoctor with
                   UserName := "doctor1", Email := "doctor", Password := "doctor",
                   Name := "name", Address := "123456789123456", Status := "status",
                   OpenDay := "senin", CloseDay := "senin", Capacity := 50 }
    file := some "photo.jpg"
    doctor_uid := "abc"
    userName := ""
    email := "" }

/-- A registration request whose user name has 96 characters: it fits
the column `user_name`, and "admin" followed by it does not. -/
def longName : Doctor :=
  { gorm.zeroDoctor with
    UserName := "dr.maria.concepcion.fernandez.gutierrez.villanueva.de.los.angeles@rumah-sakit-umum-daerah.malang"
    Email := "maria@clinic.id", Password := "secret", Name := "Maria", Capacity := 20 }

/-- The doctor row stored for `longName` in `env`. -/
def maria : Doctor :=
  { bob with
    UserName := "dr.maria.concepcion.fernandez.gutierrez.villanueva.de.los.angeles@rumah-sakit-umum-daerah.malang"
    Email := "maria@clinic.id", Name := "Maria", Address := "", Capacity := 20 }

/-- A registration request that carries identity fields of its own. -/
def forged : Doctor :=
  { req with Doctor_uid := "root", Doctor_uid_ref := "root", Type_ := "admin" }

/-- An update request that sets the name and the capacity only. -/
def rename2 : Doctor := { gorm.zeroDoctor with Name := "Robert", Capacity := 30 }

/-- A registration request whose user name contains a quote. -/
def obrien : Doctor :=
  { gorm.zeroDoctor with
    UserName := "o'brien", Email := "obrien@clinic.id", Password := "secret", Name := "Pat" }

/-- The doctor row stored for `obrien` in `env`. -/
def pat : Doctor :=
  { bob with UserName := "o'brien", Email := "obrien@clinic.id", Name := "Pat", Address := "",
             Capacity := 0 }

/-- The admin row stored next to `pat`. -/
def patAdmin : Doctor :=
  { pat with
    Doctor_uid := "pQ8sYt4GhZ6uMe2RkNw5Bd", UserName := "admino'brien", Type_ := "admin" }

/-- The database `bobDb` with another password hash in its two rows. -/
def bobDb2 : DB :=
  { bobDb with
    doctors := [{ bob with Password := "$2a$14$hunter2" },
                { bobAdmin with Password := "$2a$14$hunter2" }] }

/-- The environment of a second registration: the generator draws a uid
that is taken before it draws two free ones. -/
def env2 : Env :=
  { now := 1650000900
    uids := ["Jc3T7nDmE2rVxq9WbKfLsA", "Hn6RtYw3KpZq8UdMs4LcVe", "Xb9GfJk2WmTy7QrNe5PaSd"]
    HashPassword := fun p => .ok ("$2a$14$" ++ p)
    dbFault := fun _ => none }

/-- The request of the second registration. -/
def reqAnna : Doctor :=
  { gorm.zeroDoctor with
    UserName := "dranna", Email := "anna@clinic.id", Password := "hunter2",
    Name := "Anna", Address := "Batu", Capacity := 30 }

/-- The doctor row stored for `reqAnna` in `env2`. -/
def anna : Doctor :=
  { CreatedAt := 1650000900, UpdatedAt := 1650000900, DeletedAt := none,
    Doctor_uid := "Hn6RtYw3KpZq8UdMs4LcVe", Doctor_uid_ref := "Hn6RtYw3KpZq8UdMs4LcVe",
    UserName := "dranna", Email := "anna@clinic.id", Password := "$2a$14$hunter2",
    Name := "Anna", Image := gorm.defaultImage, Address := "Batu", Status := "available",
    OpenDay := "senin", CloseDay := "senin", Capacity := 30, Type_ := "doctor" }

/-- The admin row stored next to `anna`. -/
def annaAdmin : Doctor :=
  { anna with Doctor_uid := "Xb9GfJk2WmTy7QrNe5PaSd", UserName := "admindranna", Type_ := "admin" }

/-- The database after `reqAnna` was registered in `bobDb`. -/
def bobAnnaDb : DB :=
  { doctors := [bob, bobAdmin, anna, annaAdmin], patients := [], visits := [] }

end Sample

/-! ## Lemmas on the ORM primitives -/

theorem gorm_Create_ok {fault : Option String} {now : Nat} {tbl : List Doctor}
    {req row : Doctor} {tbl1 : List Doctor}
    (h : gorm.Create fault now tbl req = .ok (row, tbl1)) :
    fault = none ∧ row = gorm.withDefaults now req ∧ gorm.columnError row = none ∧
      (tbl.any (fun r => r.Doctor_uid == row.Doctor_uid)) = false ∧ tbl1 = tbl ++ [row] := by
  unfold gorm.Create at h
  cases fault with
  | some e => simp at h
  | none =>
    simp only at h
    split at h
    · simp at h
    · rename_i hc
      split at h
      · simp at h
      · rename_i hany
        simp only [Except.ok.injEq, Prod.mk.injEq] at h
        obtain ⟨h1, h2⟩ := h
        subst h1
        refine ⟨rfl, rfl, hc, ?_, h2.symm⟩
        simpa using hany

theorem Create_ok_inv {env : Env} {db : DB} {req d : Doctor} {db1 : DB}
    (h : Repo.Create env db req = some (.ok d, db1)) :
    ∃ uid uids hashed uid2 uids2,
      (gorm.userNameRows db req.UserName).length = 0 ∧
      (gorm.emailRows db req.Email).length = 0 ∧
      shortuuid.fresh db.doctors env.uids = some (uid, uids) ∧
      env.HashPassword req.Password = .ok hashed ∧
      gorm.columnError (Repo.doctorRow env req uid hashed) = none ∧
      (db.doctors.any (fun r => r.Doctor_uid == uid)) = false ∧
      shortuuid.fresh (db.doctors ++ [Repo.doctorRow env req uid hashed]) uids
        = some (uid2, uids2) ∧
      gorm.columnError (Repo.adminRow env (Repo.doctorRow env req uid hashed) uid2) = none ∧
      ((db.doctors ++ [Repo.doctorRow env req uid hashed]).any
        (fun r => r.Doctor_uid == uid2)) = false ∧
      d = Repo.doctorRow env req uid hashed ∧
      db1 = { db with doctors := db.doctors ++ [Repo.doctorRow env req uid hashed] ++
                [Repo.adminRow env (Repo.doctorRow env req uid hashed) uid2] } := by
  unfold Repo.Create at h
  split at h
  · simp at h
  rename_i hu
  split at h
  · simp at h
  rename_i he
  split at h
  · simp at h
  rename_i uid uids hf
  try dsimp only at h
  split at h
  · simp at h
  rename_i hashed hh
  try dsimp only at h
  split at h
  · simp at h
  rename_i row tbl1 hc1
  try dsimp only at h
  split at h
  · simp at h
  rename_i uid2 uids2 hf2
  try dsimp only at h
  split at h
  · simp at h
  rename_i row2 tbl2 hc2
  obtain ⟨-, hrow, hce, hany, htbl⟩ := gorm_Create_ok hc1
  obtain ⟨-, hrow2, hce2, hany2, htbl2⟩ := gorm_Create_ok hc2
  simp only [Option.some.injEq, Prod.mk.injEq, Except.ok.injEq] at h
  obtain ⟨hd, hdb⟩ := h
  have hrow' : row = Repo.doctorRow env req uid hashed := hrow
  subst hrow'
  have hrow2' : row2 = Repo.adminRow env (Repo.doctorRow env req uid hashed) uid2 := hrow2
  subst hrow2'
  subst htbl
  subst htbl2
  refine ⟨uid, uids, hashed, uid2, uids2, by simpa using hu, by simpa using he, hf, hh, hce,
    ?_, hf2, hce2, ?_, hd.symm, hdb.symm⟩
  · simpa [Repo.doctorRow, gorm.withDefaults] using hany
  · simpa [Repo.adminRow, gorm.withDefaults] using hany2

theorem Create_error_inv {env : Env} {db : DB} {req : Doctor} {e : String} {db1 : DB}
    (h : Repo.Create env db req = some (.error e, db1)) :
    db1 = db ∨
    ∃ uid hashed, db1 = { db with doctors := db.doctors ++ [Repo.doctorRow env req uid hashed] } := by
  unfold Repo.Create at h
  split at h
  · simp only [Option.some.injEq, Prod.mk.injEq] at h
    exact Or.inl h.2.symm
  split at h
  · simp only [Option.some.injEq, Prod.mk.injEq] at h
    exact Or.inl h.2.symm
  split at h
  · simp at h
  rename_i uid uids hf
  try dsimp only at h
  split at h
  · simp only [Option.some.injEq, Prod.mk.injEq] at h
    exact Or.inl h.2.symm
  rename_i hashed hh
  try dsimp only at h
  split at h
  · simp only [Option.some.injEq, Prod.mk.injEq] at h
    exact Or.inl h.2.symm
  rename_i row tbl1 hc1
  try dsimp only at h
  split at h
  · simp at h
  try dsimp only at h
  split at h
  · obtain ⟨-, hrow, -, -, htbl⟩ := gorm_Create_ok hc1
    simp only [Option.some.injEq, Prod.mk.injEq] at h
    right
    refine ⟨uid, hashed, ?_⟩
    rw [← h.2, htbl, hrow]
    rfl
  · simp at h

theorem fresh_of_mem {tbl : List Doctor} {cands : List String} {uid : String}
    (hmem : uid ∈ cands) (hfree : (gorm.findByUid tbl uid).length = 0) :
    ∃ u rest, shortuuid.fresh tbl cands = some (u, rest) ∧
      (gorm.findByUid tbl u).length = 0 := by
  induction cands with
  | nil => simp at hmem
  | cons c cs ih =>
    unfold shortuuid.fresh
    by_cases hc : (gorm.findByUid tbl c).length = 0
    · exact ⟨c, cs, by rw [if_pos hc], hc⟩
    · rw [if_neg hc]
      rcases List.mem_cons.mp hmem with h | h
      · subst h
        exact absurd hfree hc
      · exact ih h

theorem fresh_is_free {tbl : List Doctor} {cands : List String} {uid : String}
    {rest : List String} (h : shortuuid.fresh tbl cands = some (uid, rest)) :
    (gorm.findByUid tbl uid).length = 0 ∧ uid ∈ cands := by
  induction cands with
  | nil => simp [shortuuid.fresh] at h
  | cons c cs ih =>
    unfold shortuuid.fresh at h
    by_cases hc : (gorm.findByUid tbl c).length = 0
    · rw [if_pos hc] at h
      simp only [Option.some.injEq, Prod.mk.injEq] at h
      obtain ⟨h1, -⟩ := h
      subst h1
      exact ⟨hc, List.mem_cons_self _ _⟩
    · rw [if_neg hc] at h
      exact ⟨(ih h).1, List.mem_cons_of_mem _ (ih h).2⟩

theorem gorm_Create_of {now : Nat} {tbl : List Doctor} {req : Doctor}
    (hcol : gorm.columnError (gorm.withDefaults now req) = none)
    (hkey : (tbl.any (fun r => r.Doctor_uid == req.Doctor_uid)) = false) :
    gorm.Create none now tbl req
      = .ok (gorm.withDefaults now req, tbl ++ [gorm.withDefaults now req]) := by
  have hkey1 : (tbl.any (fun r => r.Doctor_uid == (gorm.withDefaults now req).Doctor_uid))
      = false := hkey
  unfold gorm.Create
  simp only [hcol, hkey1, Bool.false_eq_true, if_false]

theorem Create_ok_of {env : Env} {db : DB} {req : Doctor} {uid uid2 hashed : String}
    {uids uids2 : List String}
    (hname : (gorm.userNameRows db req.UserName).length = 0)
    (hemail : (gorm.emailRows db req.Email).length = 0)
    (hfresh : shortuuid.fresh db.doctors env.uids = some (uid, uids))
    (hhash : env.HashPassword req.Password = .ok hashed)
    (hf1 : env.dbFault Op.insertDoctor = none)
    (hcol : gorm.columnError (Repo.doctorRow env req uid hashed) = none)
    (hkey : (db.doctors.any (fun r => r.Doctor_uid == uid)) = false)
    (hfresh2 : shortuuid.fresh (db.doctors ++ [Repo.doctorRow env req uid hashed]) uids
      = some (uid2, uids2))
    (hf2 : env.dbFault Op.insertAdmin = none)
    (hcol2 : gorm.columnError (Repo.adminRow env (Repo.doctorRow env req uid hashed) uid2)
      = none)
    (hkey2 : ((db.doctors ++ [Repo.doctorRow env req uid hashed]).any
      (fun r => r.Doctor_uid == uid2)) = false) :
    Repo.Create env db req
      = some (.ok (Repo.doctorRow env req uid hashed),
          { db with doctors := db.doctors ++ [Repo.doctorRow env req uid hashed] ++
              [Repo.adminRow env (Repo.doctorRow env req uid hashed) uid2] }) := by
  unfold Repo.Create
  rw [if_neg (by simp [hname]), if_neg (by simp [hemail]), hfresh]
  simp only [hhash, hf1, hf2]
  split
  · rename_i e he
    have h1 := (gorm_Create_of hcol hkey).symm.trans he
    cases h1
  · rename_i row tbl1 he
    have h1 := (gorm_Create_of hcol hkey).symm.trans he
    simp only [Except.ok.injEq, Prod.mk.injEq] at h1
    obtain ⟨hrow, htbl⟩ := h1
    subst hrow
    subst htbl
    have h2 : shortuuid.fresh (db.doctors ++ [gorm.withDefaults env.now
        (Doctor.mk req.CreatedAt req.UpdatedAt req.DeletedAt uid uid req.UserName req.Email
          hashed req.Name req.Image req.Address req.Status req.OpenDay req.CloseDay
          req.Capacity "doctor")]) uids = some (uid2, uids2) := hfresh2
    simp only [h2]
    split
    · rename_i e he2
      have h3 := (gorm_Create_of hcol2 hkey2).symm.trans he2
      cases h3
    · rename_i row2 tbl2 he2
      have h3 := (gorm_Create_of hcol2 hkey2).symm.trans he2
      simp only [Except.ok.injEq, Prod.mk.injEq] at h3
      obtain ⟨hrow2, htbl2⟩ := h3
      subst htbl2
      rfl

theorem userNameRows_length_eq_zero {db : DB} {u : String} :
    (gorm.userNameRows db u).length = 0 ↔
      (∀ p ∈ db.patients, p.DeletedAt = none → p.UserName ≠ u) ∧
      (∀ r ∈ db.doctors, r.DeletedAt = none → r.UserName ≠ u) := by
  simp [gorm.userNameRows, gorm.livePatient, gorm.liveDoctor, List.filter_eq_nil_iff]

theorem emailRows_length_eq_zero {db : DB} {e : String} :
    (gorm.emailRows db e).length = 0 ↔
      ∀ r ∈ db.doctors, r.DeletedAt = none → r.Email ≠ e := by
  simp [gorm.emailRows, gorm.liveDoctor, List.filter_eq_nil_iff]

theorem findByUid_length_eq_zero {tbl : List Doctor} {uid : String} :
    (gorm.findByUid tbl uid).length = 0 ↔
      ∀ r ∈ tbl, r.DeletedAt = none → r.Doctor_uid ≠ uid := by
  simp [gorm.findByUid, gorm.liveDoctor, List.filter_eq_nil_iff]

theorem userNameRows_patient_emails (db : DB) (f : Patient → String) (u : String) :
    gorm.userNameRows
      { db with patients := db.patients.map (fun p => { p with Email := f p }) } u
      = gorm.userNameRows db u := by
  simp [gorm.userNameRows, gorm.livePatient, List.filter_map, Function.comp_def]

theorem Create_patient_emails (env : Env) (db : DB) (req : Doctor) (f : Patient → String) :
    (Repo.Create env
        { db with patients := db.patients.map (fun p => { p with Email := f p }) } req).map
      (fun r => (r.1, r.2.doctors))
    = (Repo.Create env db req).map (fun r => (r.1, r.2.doctors)) := by
  have hE : gorm.emailRows
      { db with patients := db.patients.map (fun p => { p with Email := f p }) } req.Email
      = gorm.emailRows db req.Email := rfl
  unfold Repo.Create
  rw [userNameRows_patient_emails, hE]
  dsimp only
  split
  · rfl
  split
  · rfl
  split
  · rfl
  split
  · rfl
  split
  · rfl
  split
  · rfl
  split
  · rfl
  · rfl

/-! ## Conditions built from one literal -/

theorem scan_append (st : sql.Scan) (xs ys : List Char) :
    sql.scan st (xs ++ ys) =
      match sql.scanState st xs with
      | none => none
      | some (st1, ts) => (sql.scan st1 ys).map (fun r => ts ++ r) := by
  induction xs generalizing st with
  | nil => simp [sql.scanState]
  | cons c cs ih =>
    simp only [List.cons_append, sql.scan, sql.scanState]
    cases hs : sql.step st c with
    | none => simp
    | some r =>
      obtain ⟨st1, ts⟩ := r
      have h1 := ih st1
      cases hr : sql.scanState st1 cs with
      | none =>
        rw [hr] at h1
        simp [h1, hr]
      | some r1 =>
        obtain ⟨st2, ts2⟩ := r1
        rw [hr] at h1
        cases hy : sql.scan st2 ys <;> simp [h1, hy, hr]

theorem scan_literal (v acc : List Char)
    (hv : v.all (fun c => !(c == sql.quote) && !(c == sql.backslash)) = true) :
    sql.scan (sql.Scan.inStr acc) (v ++ [sql.quote]) = some [sql.Tok.str (acc ++ v)] := by
  induction v generalizing acc with
  | nil => simp [sql.scan, sql.step, sql.finish]
  | cons c cs ih =>
    simp only [List.all_cons, Bool.and_eq_true, Bool.not_eq_true', beq_eq_false_iff_ne] at hv
    obtain ⟨⟨hq, hb⟩, hcs⟩ := hv
    have hq1 : (c == sql.quote) = false := by simpa using hq
    have hb1 : (c == sql.backslash) = false := by simpa using hb
    simp only [List.cons_append, sql.scan, sql.step, hq1, hb1, Bool.false_eq_true, if_false]
    have h1 := ih (acc ++ [c]) hcs
    simp only [List.append_eq] at h1 ⊢
    rw [h1]
    simp

theorem compile_literal (pre : String) (w : List Char) (v : String)
    (hpre : sql.scanState sql.Scan.idle pre.data
      = some (sql.Scan.inStr [], [sql.Tok.word w, sql.Tok.eq]))
    (hw : (sql.isOr w || sql.isAnd w) = false)
    (hcol : (sql.column gorm.zeroDoctor (String.mk w)).isSome = true)
    (hv : sql.plain v = true) :
    sql.compile (pre ++ v ++ "'") = .ok [[⟨sql.Operand.col (String.mk w), sql.Operand.lit v⟩]] := by
  have hdata : (pre ++ v ++ "'").data = pre.data ++ (v.data ++ [sql.quote]) := by
    simp [String.data_append, sql.quote]
  unfold sql.compile
  rw [hdata, scan_append, hpre]
  simp only
  rw [scan_literal v.data [] hv]
  simp [sql.parse, sql.operand, hw, sql.Cmp.known, sql.value, hcol]

theorem cutsTail_literal (pre : String) (w : List Char) (v : String)
    (hpre : sql.scanState sql.Scan.idle pre.data
      = some (sql.Scan.inStr [], [sql.Tok.word w, sql.Tok.eq]))
    (hv : sql.plain v = true) :
    sql.cutsTail (pre ++ v ++ "'") = false := by
  have hdata : (pre ++ v ++ "'").data = pre.data ++ (v.data ++ [sql.quote]) := by
    simp [String.data_append, sql.quote]
  unfold sql.cutsTail
  rw [hdata, scan_append, hpre]
  simp only
  rw [scan_literal v.data [] hv]
  simp [sql.endsInComment]

theorem text_ne_empty (pre v : String) : pre ++ v ++ "'" ≠ "" := by
  intro h
  have h1 := congrArg String.data h
  simp [String.data_append] at h1

theorem whereText_literal (tbl : List Doctor) (pre : String) (w : List Char) (v : String)
    (hpre : sql.scanState sql.Scan.idle pre.data
      = some (sql.Scan.inStr [], [sql.Tok.word w, sql.Tok.eq]))
    (hw : (sql.isOr w || sql.isAnd w) = false)
    (hcol : (sql.column gorm.zeroDoctor (String.mk w)).isSome = true)
    (hv : sql.plain v = true) :
    gorm.whereText tbl (pre ++ v ++ "'")
      = .ok (tbl.filter (fun d => gorm.liveDoctor d &&
          sql.holds [[⟨sql.Operand.col (String.mk w), sql.Operand.lit v⟩]] d)) := by
  unfold gorm.whereText
  rw [if_neg (text_ne_empty _ v), compile_literal pre w v hpre hw hcol hv]
  simp only [cutsTail_literal pre w v hpre hv]
  cases sql.wrapped (pre ++ v ++ "'") <;> simp [sql.holds]

theorem whereText_doctor_uid (tbl : List Doctor) (v : String) (hv : sql.plain v = true) :
    gorm.whereText tbl ("doctor_uid = '" ++ v ++ "'")
      = .ok (tbl.filter (fun d => gorm.liveDoctor d && d.Doctor_uid == v)) := by
  rw [whereText_literal tbl "doctor_uid = '" "doctor_uid".data v (by rfl) (by rfl) (by rfl) hv]
  simp only [Except.ok.injEq]
  congr 1
  funext d
  simp [sql.holds, sql.Cmp.holds, sql.value, sql.column]

theorem whereText_user_name (tbl : List Doctor) (v : String) (hv : sql.plain v = true) :
    gorm.whereText tbl ("user_name = '" ++ v ++ "'")
      = .ok (tbl.filter (fun d => gorm.liveDoctor d && d.UserName == v)) := by
  rw [whereText_literal tbl "user_name = '" "user_name".data v (by rfl) (by rfl) (by rfl) hv]
  simp only [Except.ok.injEq]
  congr 1
  funext d
  simp [sql.holds, sql.Cmp.holds, sql.value, sql.column]

theorem whereText_email (tbl : List Doctor) (v : String) (hv : sql.plain v = true) :
    gorm.whereText tbl ("email = '" ++ v ++ "'")
      = .ok (tbl.filter (fun d => gorm.liveDoctor d && d.Email == v)) := by
  rw [whereText_literal tbl "email = '" "email".data v (by rfl) (by rfl) (by rfl) hv]
  simp only [Except.ok.injEq]
  congr 1
  funext d
  simp [sql.holds, sql.Cmp.holds, sql.value, sql.column]

theorem Delete_ok_inv {env : Env} {db : DB} {uid : String} {res : Doctor} {db1 : DB}
    (h : Repo.Delete env db uid = (.ok res, db1)) :
    env.dbFault Op.delete = none ∧ (gorm.findByUid db.doctors uid).length ≠ 0 ∧
    res = { gorm.zeroDoctor with DeletedAt := some env.now } ∧
    db1 = { db with doctors := db.doctors.map (fun d =>
      if gorm.liveDoctor d && d.Doctor_uid == uid then { d with DeletedAt := some env.now }
      else d) } := by
  unfold Repo.Delete gorm.Delete at h
  cases hf : env.dbFault Op.delete with
  | some e => simp [hf] at h
  | none =>
    simp only [hf] at h
    split at h
    · simp at h
    · rename_i hn
      simp only [Prod.mk.injEq, Except.ok.injEq] at h
      exact ⟨rfl, hn, h.1.symm, h.2.symm⟩

theorem tombstoned_no_live_uid (now : Nat) (tbl : List Doctor) (uid : String) :
    ∀ d ∈ tbl.map (fun d =>
        if gorm.liveDoctor d && d.Doctor_uid == uid then { d with DeletedAt := some now }
        else d),
      d.DeletedAt = none → d.Doctor_uid ≠ uid := by
  intro d hd hlive huid
  obtain ⟨r, -, hr⟩ := List.mem_map.mp hd
  by_cases hm : (gorm.liveDoctor r && r.Doctor_uid == uid) = true
  · rw [if_pos hm] at hr
    subst hr
    simp at hlive
  · rw [if_neg hm] at hr
    subst hr
    apply hm
    simp [gorm.liveDoctor, hlive, huid]

theorem Update_ok_inv {env : Env} {db : DB} {uid : String} {req d : Doctor} {db1 : DB}
    (h : Repo.Update env db uid req = (.ok d, db1)) :
    ∃ password,
      env.dbFault Op.begin = none ∧
      (req.UserName = "" ∨ (gorm.userNameRows db req.UserName).length = 0) ∧
      (req.Email = "" ∨ (gorm.emailRows db req.Email).length = 0) ∧
      Repo.hashIfSet env req.Password = .ok password ∧
      env.dbFault Op.update = none ∧
      (gorm.findByUid db.doctors uid).length ≠ 0 ∧
      gorm.columnError (Repo.updateValues req password) = none ∧
      env.dbFault Op.commit = none ∧
      d = gorm.zeroDoctor ∧
      db1 = { db with doctors := db.doctors.map (fun r =>
        if gorm.liveDoctor r && r.Doctor_uid == uid then
          gorm.assign env.now (Repo.updateValues req password) r
        else r) } := by
  unfold Repo.Update gorm.Begin at h
  cases hb : env.dbFault Op.begin with
  | some e0 => simp [hb] at h
  | none =>
    simp only [hb] at h
    split at h
    · simp at h
    rename_i hname
    split at h
    · simp at h
    rename_i hemail
    split at h
    · simp at h
    rename_i password hpw
    try dsimp only at h
    unfold gorm.Updates at h
    cases hu : env.dbFault Op.update with
    | some e1 => simp [hu] at h
    | none =>
      simp only [hu] at h
      by_cases hf : (gorm.findByUid db.doctors uid).length = 0
      · simp [hf] at h
      · simp only [hf, if_false] at h
        split at h
        · simp at h
        rename_i n tbl hres
        split at hres
        · simp at hres
        rename_i hcol
        simp only [Except.ok.injEq, Prod.mk.injEq] at hres
        obtain ⟨hn, htbl⟩ := hres
        split at h
        · simp at h
        unfold gorm.Tx.Commit at h
        cases hc : env.dbFault Op.commit with
        | some e2 => simp [hc] at h
        | none =>
          simp only [hc, Prod.mk.injEq, Except.ok.injEq] at h
          refine ⟨password, rfl, ?_, ?_, hpw, rfl, hf, hcol, rfl, h.1.symm, ?_⟩
          · by_cases hn0 : req.UserName = ""
            · exact Or.inl hn0
            · right
              by_contra hne
              exact hname ⟨hne, hn0⟩
          · by_cases he0 : req.Email = ""
            · exact Or.inl he0
            · right
              by_contra hne
              exact hemail ⟨hne, he0⟩
          · rw [← h.2, ← htbl]
            rfl

theorem assign_keeps_identity (now : Nat) (req : Doctor) (password : String) (r : Doctor) :
    (gorm.assign now (Repo.updateValues req password) r).DeletedAt = r.DeletedAt ∧
    (gorm.assign now (Repo.updateValues req password) r).Doctor_uid = r.Doctor_uid ∧
    (gorm.assign now (Repo.updateValues req password) r).Doctor_uid_ref = r.Doctor_uid_ref ∧
    (gorm.assign now (Repo.updateValues req password) r).Type_ = r.Type_ := by
  simp [gorm.assign, Repo.updateValues, gorm.zeroDoctor]

theorem GetProfile_first_match (tbl rest : List Doctor) (doc : Doctor) (db : DB)
    (doctor_uid userName email : String) (p : Doctor → Bool)
    (hdb : db.doctors = tbl ++ doc :: rest)
    (hwhere : gorm.whereText db.doctors (Repo.profileCondition doctor_uid userName email)
      = .ok (db.doctors.filter (fun d => gorm.liveDoctor d && p d)))
    (hnone : ∀ r ∈ tbl, r.DeletedAt = none → p r = false)
    (hlive : doc.DeletedAt = none) (hdoc : p doc = true) :
    Repo.GetProfile db doctor_uid userName email = .ok (Repo.profileOf doc) := by
  have hnil : tbl.filter (fun d => gorm.liveDoctor d && p d) = [] := by
    rw [List.filter_eq_nil_iff]
    intro r hr hc
    simp only [gorm.liveDoctor, Bool.and_eq_true, Option.isNone_iff_eq_none] at hc
    rw [hnone r hr hc.1] at hc
    exact absurd hc.2 (by simp)
  have hfilter : db.doctors.filter (fun d => gorm.liveDoctor d && p d)
      = doc :: rest.filter (fun d => gorm.liveDoctor d && p d) := by
    rw [hdb, List.filter_append, hnil, List.nil_append, List.filter_cons]
    simp [gorm.liveDoctor, hlive, hdoc]
  unfold Repo.GetProfile
  rw [hwhere, hfilter]

theorem Create_then_GetProfile_plain {env : Env} {db : DB} {req d : Doctor} {db1 : DB}
    (h : Repo.Create env db req = some (.ok d, db1))
    (hlive : req.DeletedAt = none) :
    (d.Doctor_uid ≠ "" → sql.plain d.Doctor_uid = true →
      Repo.GetProfile db1 d.Doctor_uid "" "" = .ok (Repo.profileOf d)) ∧
    (req.UserName ≠ "" → sql.plain req.UserName = true →
      Repo.GetProfile db1 "" req.UserName "" = .ok (Repo.profileOf d)) ∧
    (Repo.profileOf d).Doctor_uid_ref = d.Doctor_uid ∧
    (Repo.profileOf d).UserName = req.UserName ∧ (Repo.profileOf d).Email = req.Email ∧
    (Repo.profileOf d).Name = req.Name ∧ (Repo.profileOf d).Address = req.Address ∧
    (Repo.profileOf d).Capacity = req.Capacity := by
  obtain ⟨uid, uids, hashed, uid2, uids2, hname, -, -, -, -, hany, -, -, -, hd, hdb⟩ :=
    Create_ok_inv h
  subst hd
  subst hdb
  have hdlive : (Repo.doctorRow env req uid hashed).DeletedAt = none := by
    simpa [Repo.doctorRow, gorm.withDefaults] using hlive
  have hduid : (Repo.doctorRow env req uid hashed).Doctor_uid = uid := by
    simp [Repo.doctorRow, gorm.withDefaults]
  have hdname : (Repo.doctorRow env req uid hashed).UserName = req.UserName := by
    simp [Repo.doctorRow, gorm.withDefaults]
  have hshape : (db.doctors ++ [Repo.doctorRow env req uid hashed] ++
      [Repo.adminRow env (Repo.doctorRow env req uid hashed) uid2])
      = db.doctors ++ Repo.doctorRow env req uid hashed ::
        [Repo.adminRow env (Repo.doctorRow env req uid hashed) uid2] := by simp
  refine ⟨?_, ?_, ?_, ?_, ?_, ?_, ?_, ?_⟩
  · intro hne huid
    apply GetProfile_first_match db.doctors _ _ _ _ _ _ (fun r => r.Doctor_uid == uid) hshape
    · rw [hduid]
      unfold Repo.profileCondition
      rw [hduid] at hne huid
      rw [if_pos hne]
      exact whereText_doctor_uid _ _ huid
    · intro r hr _
      have h1 : ∀ x ∈ db.doctors, ¬ x.Doctor_uid = uid := by simpa using hany
      simpa using h1 r hr
    · exact hdlive
    · simp [hduid]
  · intro hne hplain
    apply GetProfile_first_match db.doctors _ _ _ _ _ _ (fun r => r.UserName == req.UserName)
      hshape
    · unfold Repo.profileCondition
      simp only [ne_eq, not_true_eq_false, if_false]
      rw [if_pos hne]
      exact whereText_user_name _ _ hplain
    · intro r hr hrlive
      have h1 := (userNameRows_length_eq_zero.mp hname).2 r hr hrlive
      simpa using h1
    · exact hdlive
    · simp [hdname]
  all_goals simp [Repo.profileOf, Repo.doctorRow, gorm.withDefaults]

theorem filter_password (tbl : List Doctor) (f : Doctor → String) (p : Doctor → Bool)
    (hp : ∀ r, p { r with Password := f r } = p r) :
    (tbl.map (fun r => { r with Password := f r })).filter
        (fun d => gorm.liveDoctor d && p d)
      = (tbl.filter (fun d => gorm.liveDoctor d && p d)).map
          (fun r => { r with Password := f r }) := by
  rw [List.filter_map]
  congr 1
  apply List.filter_congr
  intro r _
  simp [gorm.liveDoctor, hp r]

theorem GetProfile_password_plain (db : DB) (f : Doctor → String)
    (doctor_uid userName email : String)
    (h1 : sql.plain doctor_uid = true) (h2 : sql.plain userName = true)
    (h3 : sql.plain email = true) :
    Repo.GetProfile
        { db with doctors := db.doctors.map (fun r => { r with Password := f r }) }
        doctor_uid userName email
      = Repo.GetProfile db doctor_uid userName email := by
  have key : ∀ p : Doctor → Bool, (∀ r, p { r with Password := f r } = p r) →
      gorm.whereText (db.doctors.map (fun r => { r with Password := f r }))
          (Repo.profileCondition doctor_uid userName email)
        = .ok ((db.doctors.map (fun r => { r with Password := f r })).filter
            (fun d => gorm.liveDoctor d && p d)) →
      gorm.whereText db.doctors (Repo.profileCondition doctor_uid userName email)
        = .ok (db.doctors.filter (fun d => gorm.liveDoctor d && p d)) →
      Repo.GetProfile
          { db with doctors := db.doctors.map (fun r => { r with Password := f r }) }
          doctor_uid userName email
        = Repo.GetProfile db doctor_uid userName email := by
    intro p hp hw2 hw
    unfold Repo.GetProfile
    simp only [hw2, hw]
    rw [filter_password db.doctors f p hp]
    generalize db.doctors.filter (fun d => gorm.liveDoctor d && p d) = l
    cases l with
    | nil => rfl
    | cons d ds => rfl
  by_cases ha : doctor_uid = ""
  · by_cases hb : userName = ""
    · by_cases hc : email = ""
      · apply key (fun _ => true) (fun _ => rfl)
        · simp [Repo.profileCondition, ha, hb, hc, gorm.whereText]
        · simp [Repo.profileCondition, ha, hb, hc, gorm.whereText]
      · have hcond : Repo.profileCondition doctor_uid userName email
            = "email = '" ++ email ++ "'" := by
          simp [Repo.profileCondition, ha, hb, hc]
        apply key (fun r => r.Email == email) (fun _ => rfl)
        · rw [hcond]
          exact whereText_email _ _ h3
        · rw [hcond]
          exact whereText_email _ _ h3
    · have hcond : Repo.profileCondition doctor_uid userName email
          = "user_name = '" ++ userName ++ "'" := by
        simp [Repo.profileCondition, ha, hb]
      apply key (fun r => r.UserName == userName) (fun _ => rfl)
      · rw [hcond]
        exact whereText_user_name _ _ h2
      · rw [hcond]
        exact whereText_user_name _ _ h2
  · have hcond : Repo.profileCondition doctor_uid userName email
        = "doctor_uid = '" ++ doctor_uid ++ "'" := by
      simp [Repo.profileCondition, ha]
    apply key (fun r => r.Doctor_uid == doctor_uid) (fun _ => rfl)
    · rw [hcond]
      exact whereText_doctor_uid _ _ h1
    · rw [hcond]
      exact whereText_doctor_uid _ _ h1

/-! ## Theorems -/

/-- C1: a request accepted by `Create` adds exactly two rows to the doctor
table, after the rows already there: a row of type "doctor" under the
requested user name and a row of type "admin" under "admin" followed by
that name; both carry as `Doctor_uid_ref` the `Doctor_uid` of the doctor
row; the earlier rows and the other tables are as before. -/
theorem Create_adds_doctor_admin_pair (env : Env) (db : DB) (req d : Doctor) (db1 : DB)
    (h : Repo.Create env db req = some (.ok d, db1)) :
    ∃ doc adm : Doctor,
      db1.doctors = db.doctors ++ [doc, adm] ∧
      db1.patients = db.patients ∧ db1.visits = db.visits ∧
      doc.Type_ = "doctor" ∧ doc.UserName = req.UserName ∧
      adm.Type_ = "admin" ∧ adm.UserName = "admin" ++ req.UserName ∧
      doc.Doctor_uid_ref = doc.Doctor_uid ∧ adm.Doctor_uid_ref = doc.Doctor_uid := by
  obtain ⟨uid, uids, hashed, uid2, uids2, -, -, -, -, -, -, -, -, -, -, hdb⟩ := Create_ok_inv h
  subst hdb
  refine ⟨Repo.doctorRow env req uid hashed,
    Repo.adminRow env (Repo.doctorRow env req uid hashed) uid2, ?_, rfl, rfl, ?_, ?_, ?_, ?_, ?_, ?_⟩
  · simp
  all_goals simp [Repo.doctorRow, Repo.adminRow, gorm.withDefaults]

/-- Witness of C1: the sample request is accepted on the empty database. -/
theorem Create_adds_doctor_admin_pair_witness :
    Repo.Create Sample.env Sample.emptyDb Sample.req = some (.ok Sample.bob, Sample.bobDb) ∧
    ∃ doc adm : Doctor,
      Sample.bobDb.doctors = Sample.emptyDb.doctors ++ [doc, adm] ∧
      Sample.bobDb.patients = Sample.emptyDb.patients ∧
      Sample.bobDb.visits = Sample.emptyDb.visits ∧
      doc.Type_ = "doctor" ∧ doc.UserName = Sample.req.UserName ∧
      adm.Type_ = "admin" ∧ adm.UserName = "admin" ++ Sample.req.UserName ∧
      doc.Doctor_uid_ref = doc.Doctor_uid ∧ adm.Doctor_uid_ref = doc.Doctor_uid :=
  ⟨by decide, Create_adds_doctor_admin_pair Sample.env Sample.emptyDb Sample.req Sample.bob
    Sample.bobDb (by decide)⟩

/-- C2: when the requested user name is that of a live patient row or of a
live doctor-table row, `Create` returns "user name is already exist" and
the database is as before, whatever the environment. -/
theorem Create_rejects_taken_user_name (env : Env) (db : DB) (req : Doctor)
    (h : (∃ p ∈ db.patients, p.DeletedAt = none ∧ p.UserName = req.UserName) ∨
         (∃ r ∈ db.doctors, r.DeletedAt = none ∧ r.UserName = req.UserName)) :
    Repo.Create env db req = some (.error "user name is already exist", db) := by
  have hne : (gorm.userNameRows db req.UserName).length ≠ 0 := by
    intro h0
    obtain ⟨hp, hd⟩ := userNameRows_length_eq_zero.mp h0
    rcases h with ⟨p, hp1, hp2, hp3⟩ | ⟨r, hr1, hr2, hr3⟩
    · exact hp p hp1 hp2 hp3
    · exact hd r hr1 hr2 hr3
  unfold Repo.Create
  rw [if_pos hne]

/-- Witness of C2: registering the sample request a second time. -/
theorem Create_rejects_taken_user_name_witness :
    ((∃ p ∈ Sample.bobDb.patients, p.DeletedAt = none ∧ p.UserName = Sample.req.UserName) ∨
     (∃ r ∈ Sample.bobDb.doctors, r.DeletedAt = none ∧ r.UserName = Sample.req.UserName)) ∧
    Repo.Create Sample.env Sample.bobDb Sample.req
      = some (.error "user name is already exist", Sample.bobDb) :=
  ⟨Or.inr ⟨Sample.bob, by decide, by decide, by decide⟩,
   Create_rejects_taken_user_name Sample.env Sample.bobDb Sample.req
     (Or.inr ⟨Sample.bob, by decide, by decide, by decide⟩)⟩

/-- C3, as it holds: with a free user name, `Create` returns "email is
already exist" and leaves the database as it was when the requested email
is that of a live doctor-table row.  The email is looked up in the doctor
table only: whatever the emails of the patient rows are, the result of
`Create` and the doctor table afterwards are the same. -/
theorem Create_rejects_taken_doctor_email (env : Env) (db : DB) (req : Doctor)
    (hpatients : ∀ p ∈ db.patients, p.DeletedAt = none → p.UserName ≠ req.UserName)
    (hdoctors : ∀ r ∈ db.doctors, r.DeletedAt = none → r.UserName ≠ req.UserName) :
    ((∃ r ∈ db.doctors, r.DeletedAt = none ∧ r.Email = req.Email) →
      Repo.Create env db req = some (.error "email is already exist", db)) ∧
    ∀ f : Patient → String,
      (Repo.Create env
          { db with patients := db.patients.map (fun p => { p with Email := f p }) } req).map
        (fun r => (r.1, r.2.doctors))
      = (Repo.Create env db req).map (fun r => (r.1, r.2.doctors)) := by
  refine ⟨?_, Create_patient_emails env db req⟩
  intro hemail
  have hname := userNameRows_length_eq_zero.mpr ⟨hpatients, hdoctors⟩
  have hne : (gorm.emailRows db req.Email).length ≠ 0 := by
    intro h0
    obtain ⟨r, hr1, hr2, hr3⟩ := hemail
    exact emailRows_length_eq_zero.mp h0 r hr1 hr2 hr3
  unfold Repo.Create
  rw [if_neg (by simpa using hname), if_pos hne]

/-- Witness of C3 as it holds: a second request with the email of a stored
doctor. -/
theorem Create_rejects_taken_doctor_email_witness :
    (∀ p ∈ Sample.bobDb.patients, p.DeletedAt = none → p.UserName ≠ Sample.req2.UserName) ∧
    (∀ r ∈ Sample.bobDb.doctors, r.DeletedAt = none → r.UserName ≠ Sample.req2.UserName) ∧
    (((∃ r ∈ Sample.bobDb.doctors, r.DeletedAt = none ∧ r.Email = Sample.req2.Email) →
      Repo.Create Sample.env Sample.bobDb Sample.req2
        = some (.error "email is already exist", Sample.bobDb)) ∧
    ∀ f : Patient → String,
      (Repo.Create Sample.env
          { Sample.bobDb with
            patients := Sample.bobDb.patients.map (fun p => { p with Email := f p }) }
          Sample.req2).map (fun r => (r.1, r.2.doctors))
      = (Repo.Create Sample.env Sample.bobDb Sample.req2).map (fun r => (r.1, r.2.doctors))) :=
  ⟨by decide, by decide,
   Create_rejects_taken_doctor_email Sample.env Sample.bobDb Sample.req2 (by decide) (by decide)⟩

/-- C3 as stated fails: the email of the request is that of a live patient
row and of no doctor-table row, and `Create` succeeds and stores the
doctor and admin rows under that email. -/
theorem Create_accepts_email_of_patient :
    Sample.patient ∈ Sample.patientDb.patients ∧
    Sample.patient.DeletedAt = none ∧
    Sample.patient.Email = Sample.req.Email ∧
    Sample.patientDb.doctors = [] ∧
    Repo.Create Sample.env Sample.patientDb Sample.req
      = some (.ok Sample.bob,
          { doctors := [Sample.bob, Sample.bobAdmin], patients := [Sample.patient],
            visits := [] }) := by
  decide

/-- C4 fails on the code: `Create` looks up the requested user name but
not the name "admin" + UserName it gives to the admin row.  Before the
call no two live rows share a user name; the call succeeds; afterwards the
patient `namesake` and the new admin row both have the user name
"admindrbob". -/
theorem Create_duplicates_admin_user_name :
    (Spec.userNames Sample.namesakeDb).Nodup ∧
    Repo.Create Sample.env Sample.namesakeDb Sample.req
      = some (.ok Sample.bob,
          { doctors := [Sample.bob, Sample.bobAdmin], patients := [Sample.namesake],
            visits := [] }) ∧
    Spec.userNames
        { doctors := [Sample.bob, Sample.bobAdmin], patients := [Sample.namesake], visits := [] }
      = ["admindrbob", "drbob", "admindrbob"] := by
  decide

/-- C5, as it holds.  Call two live rows of the doctor table paired when
they carry the same `Doctor_uid_ref`, as a doctor row and its admin row
do.  If before a successful `Create` no two live rows that are not paired
share an email, then the same is true afterwards.  The two rows added are
paired and both carry the requested email, no live row present before the
call carries it, and the emails of the live rows are afterwards those of
before followed by the requested email twice (when the request carries no
tombstone of its own). -/
theorem Create_keeps_emails_distinct_up_to_pair (env : Env) (db : DB) (req d : Doctor)
    (db1 : DB) (h : Repo.Create env db req = some (.ok d, db1))
    (hpre : Spec.emailsSharedInPairsOnly db.doctors) :
    Spec.emailsSharedInPairsOnly db1.doctors ∧
    ∃ doc adm : Doctor,
      db1.doctors = db.doctors ++ [doc, adm] ∧
      doc.Email = req.Email ∧ adm.Email = req.Email ∧
      doc.Doctor_uid_ref = adm.Doctor_uid_ref ∧
      (∀ r ∈ db.doctors, r.DeletedAt = none → r.Email ≠ req.Email) ∧
      Spec.emails db1.doctors = Spec.emails db.doctors ++
        (if req.DeletedAt = none then [req.Email, req.Email] else []) := by
  obtain ⟨uid, uids, hashed, uid2, uids2, -, he, -, -, -, -, -, -, -, -, hdb⟩ := Create_ok_inv h
  subst hdb
  have hfree : ∀ r ∈ db.doctors, r.DeletedAt = none → r.Email ≠ req.Email :=
    emailRows_length_eq_zero.mp he
  have hdoc : (Repo.doctorRow env req uid hashed).Email = req.Email := by
    simp [Repo.doctorRow, gorm.withDefaults]
  have hadm : (Repo.adminRow env (Repo.doctorRow env req uid hashed) uid2).Email = req.Email := by
    simp [Repo.doctorRow, Repo.adminRow, gorm.withDefaults]
  have href : (Repo.doctorRow env req uid hashed).Doctor_uid_ref
      = (Repo.adminRow env (Repo.doctorRow env req uid hashed) uid2).Doctor_uid_ref := by
    simp [Repo.doctorRow, Repo.adminRow, gorm.withDefaults]
  have hemails : Spec.emails (db.doctors ++ [Repo.doctorRow env req uid hashed] ++
      [Repo.adminRow env (Repo.doctorRow env req uid hashed) uid2])
      = Spec.emails db.doctors ++
        (if req.DeletedAt = none then [req.Email, req.Email] else []) := by
    cases hdel : req.DeletedAt <;>
      simp [Spec.emails, List.filter_append, List.filter_cons, gorm.liveDoctor, Repo.doctorRow,
        Repo.adminRow, gorm.withDefaults, hdel]
  refine ⟨?_, _, _, by simp, hdoc, hadm, href, hfree, hemails⟩
  have hnew : ([Repo.doctorRow env req uid hashed,
      Repo.adminRow env (Repo.doctorRow env req uid hashed) uid2]).Pairwise
      (fun a b => a.Email = b.Email → a.Doctor_uid_ref = b.Doctor_uid_ref) := by
    simp [href]
  unfold Spec.emailsSharedInPairsOnly at hpre ⊢
  simp only [List.append_assoc, List.singleton_append, List.filter_append]
  rw [List.pairwise_append]
  refine ⟨hpre, hnew.sublist (List.filter_sublist _), ?_⟩
  intro a ha b hb hab
  exfalso
  have ha1 := List.mem_filter.mp ha
  have hb1 := (List.mem_filter.mp hb).1
  have hbe : b.Email = req.Email := by
    simp only [List.mem_cons, List.mem_singleton, List.not_mem_nil, or_false] at hb1
    rcases hb1 with hb1 | hb1
    · rw [hb1]; exact hdoc
    · rw [hb1]; exact hadm
  refine hfree a ha1.1 ?_ (hab.trans hbe)
  simpa [gorm.liveDoctor] using ha1.2

/-- Witness of C5 as it holds: a second registration, in a database that
holds the two rows of the first one.  They share an email and are paired,
so the premise holds there although an email occurs twice. -/
theorem Create_keeps_emails_distinct_up_to_pair_witness :
    Repo.Create Sample.env2 Sample.bobDb Sample.reqAnna
      = some (.ok Sample.anna, Sample.bobAnnaDb) ∧
    Spec.emailsSharedInPairsOnly Sample.bobDb.doctors ∧
    ¬ (Spec.emails Sample.bobDb.doctors).Nodup ∧
    Spec.emailsSharedInPairsOnly Sample.bobAnnaDb.doctors ∧
    ∃ doc adm : Doctor,
      Sample.bobAnnaDb.doctors = Sample.bobDb.doctors ++ [doc, adm] ∧
      doc.Email = Sample.reqAnna.Email ∧ adm.Email = Sample.reqAnna.Email ∧
      doc.Doctor_uid_ref = adm.Doctor_uid_ref ∧
      (∀ r ∈ Sample.bobDb.doctors, r.DeletedAt = none → r.Email ≠ Sample.reqAnna.Email) ∧
      Spec.emails Sample.bobAnnaDb.doctors = Spec.emails Sample.bobDb.doctors ++
        (if Sample.reqAnna.DeletedAt = none then [Sample.reqAnna.Email, Sample.reqAnna.Email]
         else []) :=
  ⟨by decide, by decide, by decide,
   Create_keeps_emails_distinct_up_to_pair Sample.env2 Sample.bobDb Sample.reqAnna Sample.anna
     Sample.bobAnnaDb (by decide) (by decide)⟩

/-- C5 as stated fails: the doctor table is empty before the call, so no
two rows share an email; `Create` succeeds; afterwards the doctor row and
the admin row are both live and carry the same email. -/
theorem Create_pair_shares_email :
    (Spec.emails Sample.emptyDb.doctors).Nodup ∧
    Repo.Create Sample.env Sample.emptyDb Sample.req = some (.ok Sample.bob, Sample.bobDb) ∧
    Spec.emails Sample.bobDb.doctors = ["bob@clinic.id", "bob@clinic.id"] ∧
    ¬ (Spec.emails Sample.bobDb.doctors).Nodup := by
  decide

/-- C6 fails on the code: the repository has no check of the capacity.
`Create` with capacity -5 on the empty database succeeds, and both stored
rows have capacity -5. -/
theorem Create_stores_negative_capacity :
    Sample.negativeReq.Capacity = -5 ∧
    Repo.Create Sample.env Sample.emptyDb Sample.negativeReq
      = some (.ok { Sample.bob with Capacity := -5 },
          { doctors := [{ Sample.bob with Capacity := -5 },
                        { Sample.bobAdmin with Capacity := -5 }],
            patients := [], visits := [] }) := by
  decide

/-- C7 fails on the code: the repository has no check of the capacity.
The doctor `bob` has three visits waiting; `Update` with capacity 2
succeeds and the stored capacity becomes 2. -/
theorem Update_lowers_capacity_below_pending :
    Spec.pendingVisits Sample.busyDb Sample.bob.Doctor_uid = 3 ∧
    Repo.Update Sample.later Sample.busyDb Sample.bob.Doctor_uid
        { gorm.zeroDoctor with Capacity := 2 }
      = (.ok gorm.zeroDoctor,
          { Sample.busyDb with
            doctors := [{ Sample.bob with Capacity := 2, UpdatedAt := 1650000500 },
                        Sample.bobAdmin] }) := by
  decide

/-- C8: `Update` is atomic.  Whenever it returns an error (the transaction
could not be opened, the user name or the email is taken, hashing failed,
no row matched, the UPDATE failed, or the commit failed) the committed
database, and so the doctor table, is exactly the one before the call. -/
theorem Update_error_keeps_committed (env : Env) (db : DB) (doctor_uid : String)
    (req : Doctor) (e : String) (db1 : DB)
    (h : Repo.Update env db doctor_uid req = (.error e, db1)) :
    db1 = db ∧ db1.doctors = db.doctors := by
  have hdb : db1 = db := by
    unfold Repo.Update gorm.Begin at h
    cases hb : env.dbFault Op.begin with
    | some e0 =>
      simp only [hb, Prod.mk.injEq] at h
      exact h.2.symm
    | none =>
      simp only [hb] at h
      split at h
      · simp only [gorm.Tx.Rollback, Prod.mk.injEq] at h
        exact h.2.symm
      split at h
      · simp only [gorm.Tx.Rollback, Prod.mk.injEq] at h
        exact h.2.symm
      split at h
      · simp only [Prod.mk.injEq] at h
        exact h.2.symm
      try dsimp only at h
      split at h
      · simp only [gorm.Tx.Rollback, Prod.mk.injEq] at h
        exact h.2.symm
      split at h
      · simp only [gorm.Tx.Rollback, Prod.mk.injEq] at h
        exact h.2.symm
      try dsimp only at h
      unfold gorm.Tx.Commit at h
      cases hc : env.dbFault Op.commit with
      | some e1 =>
        simp only [hc, Prod.mk.injEq] at h
        exact h.2.symm
      | none =>
        simp [hc] at h
  exact ⟨hdb, by rw [hdb]⟩

/-- Witness of C8: an UPDATE that the database refuses, the value not being
one of the enum `status`. -/
theorem Update_error_keeps_committed_witness :
    Repo.Update Sample.later Sample.bobDb Sample.bob.Doctor_uid
        { gorm.zeroDoctor with Status := "closed" }
      = (.error "Error 1265: Data truncated for column 'status' at row 1", Sample.bobDb) ∧
    (Sample.bobDb = Sample.bobDb ∧ Sample.bobDb.doctors = Sample.bobDb.doctors) :=
  ⟨by decide,
   Update_error_keeps_committed Sample.later Sample.bobDb Sample.bob.Doctor_uid
     { gorm.zeroDoctor with Status := "closed" }
     "Error 1265: Data truncated for column 'status' at row 1" Sample.bobDb (by decide)⟩

/-- C9, as it holds: when the transaction opens, the request passes the
user-name and the email check, its password is empty or is hashed without
error, the connection does not fail on the UPDATE, and no live row of the
doctor table has the given `doctor_uid`, then `Update` returns
"record not found" and the database is as before. -/
theorem Update_unknown_uid_not_found (env : Env) (db : DB) (doctor_uid : String)
    (req : Doctor)
    (hbegin : env.dbFault Op.begin = none)
    (hname : req.UserName = "" ∨ (gorm.userNameRows db req.UserName).length = 0)
    (hemail : req.Email = "" ∨ (gorm.emailRows db req.Email).length = 0)
    (hhash : req.Password = "" ∨ ∃ hashed, env.HashPassword req.Password = .ok hashed)
    (hupdate : env.dbFault Op.update = none)
    (hrow : ∀ r ∈ db.doctors, r.DeletedAt = none → r.Doctor_uid ≠ doctor_uid) :
    Repo.Update env db doctor_uid req = (.error "record not found", db) := by
  have hfind := findByUid_length_eq_zero.mpr hrow
  have h1 : ¬ ((gorm.userNameRows db req.UserName).length ≠ 0 ∧ req.UserName ≠ "") := by
    rcases hname with h | h <;> simp [h]
  have h2 : ¬ ((gorm.emailRows db req.Email).length ≠ 0 ∧ req.Email ≠ "") := by
    rcases hemail with h | h <;> simp [h]
  have h3 : ∃ pw, Repo.hashIfSet env req.Password = .ok pw := by
    unfold Repo.hashIfSet
    rcases hhash with h | ⟨hashed, h⟩
    · exact ⟨req.Password, by simp [h]⟩
    · by_cases hp : req.Password = ""
      · exact ⟨req.Password, by simp [hp]⟩
      · exact ⟨hashed, by simp [hp, h]⟩
  obtain ⟨pw, h3⟩ := h3
  unfold Repo.Update gorm.Begin
  simp only [hbegin, if_neg h1, if_neg h2, h3, hupdate, gorm.Updates, hfind, if_true,
    gorm.Tx.Rollback, gorm.ErrRecordNotFound]

/-- Witness of C9 as it holds: an update under the empty uid, which no
row has. -/
theorem Update_unknown_uid_not_found_witness :
    Sample.later.dbFault Op.begin = none ∧
    (Sample.rename.UserName = "" ∨
      (gorm.userNameRows Sample.bobDb Sample.rename.UserName).length = 0) ∧
    (Sample.rename.Email = "" ∨
      (gorm.emailRows Sample.bobDb Sample.rename.Email).length = 0) ∧
    (Sample.rename.Password = "" ∨
      ∃ hashed, Sample.later.HashPassword Sample.rename.Password = .ok hashed) ∧
    Sample.later.dbFault Op.update = none ∧
    (∀ r ∈ Sample.bobDb.doctors, r.DeletedAt = none → r.Doctor_uid ≠ "") ∧
    Repo.Update Sample.later Sample.bobDb "" Sample.rename
      = (.error "record not found", Sample.bobDb) :=
  ⟨rfl, Or.inr (by decide), Or.inl rfl, Or.inr ⟨_, rfl⟩, rfl, by decide,
   Update_unknown_uid_not_found Sample.later Sample.bobDb "" Sample.rename
     rfl (Or.inr (by decide)) (Or.inl rfl) (Or.inr ⟨_, rfl⟩) rfl (by decide)⟩

/-- C9 as stated fails: the request passes the user-name and the email
check and no live row has the given uid (the empty string), but hashing
its password fails, and `Update` returns "error in hash password", not
"record not found". -/
theorem Update_unknown_uid_hash_error :
    (gorm.userNameRows Sample.bobDb "drbobby").length = 0 ∧
    (gorm.emailRows Sample.bobDb "bobby@clinic.id").length = 0 ∧
    (gorm.findByUid Sample.bobDb.doctors "").length = 0 ∧
    Repo.Update Sample.noHash Sample.bobDb ""
        { gorm.zeroDoctor with
          UserName := "drbobby", Email := "bobby@clinic.id", Password := "secret2" }
      = (.error "error in hash password", Sample.bobDb) := by
  decide

/-- C11: when no live row of the doctor table has the given uid, `Delete`
returns "record not found" and the database is as before, whatever the
environment; and after a successful `Delete` of a uid, every further
`Delete` of that uid returns "record not found" and changes nothing. -/
theorem Delete_unknown_uid_not_found (env : Env) (db : DB) (doctor_uid : String) :
    ((∀ r ∈ db.doctors, r.DeletedAt = none → r.Doctor_uid ≠ doctor_uid) →
      Repo.Delete env db doctor_uid = (.error "record not found", db)) ∧
    (∀ (res : Doctor) (db1 : DB) (env2 : Env),
      Repo.Delete env db doctor_uid = (.ok res, db1) →
      Repo.Delete env2 db1 doctor_uid = (.error "record not found", db1)) := by
  have key : ∀ (e : Env) (d : DB),
      (∀ r ∈ d.doctors, r.DeletedAt = none → r.Doctor_uid ≠ doctor_uid) →
      Repo.Delete e d doctor_uid = (.error "record not found", d) := by
    intro e d hrow
    have hfind := findByUid_length_eq_zero.mpr hrow
    unfold Repo.Delete gorm.Delete
    cases hf : e.dbFault Op.delete with
    | some e0 => simp [gorm.ErrRecordNotFound]
    | none => simp [hfind, gorm.ErrRecordNotFound]
  refine ⟨key env db, ?_⟩
  intro res db1 env2 h
  obtain ⟨-, -, -, hdb⟩ := Delete_ok_inv h
  apply key
  subst hdb
  exact tombstoned_no_live_uid env.now db.doctors doctor_uid

/-- Witness of C11: an unknown uid, the empty uid, and a second `Delete`
of the uid of `bob`. -/
theorem Delete_unknown_uid_not_found_witness :
    (∀ r ∈ Sample.bobDb.doctors, r.DeletedAt = none → r.Doctor_uid ≠ "") ∧
    Repo.Delete Sample.later Sample.bobDb "" = (.error "record not found", Sample.bobDb) ∧
    Repo.Delete Sample.later Sample.bobDb Sample.bob.Doctor_uid
      = (.ok { gorm.zeroDoctor with DeletedAt := some 1650000500 }, Sample.deletedDb) ∧
    Repo.Delete Sample.later Sample.deletedDb Sample.bob.Doctor_uid
      = (.error "record not found", Sample.deletedDb) :=
  ⟨by decide,
   (Delete_unknown_uid_not_found Sample.later Sample.bobDb "").1 (by decide),
   by decide,
   (Delete_unknown_uid_not_found Sample.later Sample.bobDb Sample.bob.Doctor_uid).2
     { gorm.zeroDoctor with DeletedAt := some 1650000500 } Sample.deletedDb Sample.later
     (by decide)⟩

/-- C12: when binding the login request fails, or the user name is empty,
or the password is empty, `Login` answers with status 400 and the message
"invalid email or password", and it makes no call: neither to `Login` of
the repository nor to the token generator; the run is the same whatever
the repository and the token generator are. -/
theorem Login_rejects_incomplete_request
    (repo : String → String → Except String golang.Map)
    (GenerateToken : String → String → Except String String)
    (bound : AuthController.Bound)
    (h : bound.err ≠ none ∨ bound.Userlogin.UserName = "" ∨ bound.Userlogin.Password = "") :
    ∃ body,
      (AuthController.Login repo GenerateToken bound).outcome
        = AuthController.Outcome.JSON 400 body ∧
      body.message = "invalid email or password" ∧
      (AuthController.Login repo GenerateToken bound).calls = [] ∧
      ∀ (repo2 : String → String → Except String golang.Map)
        (GenerateToken2 : String → String → Except String String),
        AuthController.Login repo2 GenerateToken2 bound
          = AuthController.Login repo GenerateToken bound := by
  refine ⟨templates.BadRequest none "invalid email or password"
    (AuthController.errData bound.err), ?_, rfl, ?_, ?_⟩
  · unfold AuthController.Login
    rw [if_pos h]
    rfl
  · unfold AuthController.Login
    rw [if_pos h]
  · intro repo2 GenerateToken2
    unfold AuthController.Login
    rw [if_pos h, if_pos h]

/-- Witness of C12: a request without password. -/
theorem Login_rejects_incomplete_request_witness :
    (Sample.noPassword.err ≠ none ∨ Sample.noPassword.Userlogin.UserName = "" ∨
      Sample.noPassword.Userlogin.Password = "") ∧
    ∃ body,
      (AuthController.Login Sample.mockAuthLib Sample.generateToken Sample.noPassword).outcome
        = AuthController.Outcome.JSON 400 body ∧
      body.message = "invalid email or password" ∧
      (AuthController.Login Sample.mockAuthLib Sample.generateToken Sample.noPassword).calls
        = [] ∧
      ∀ (repo2 : String → String → Except String golang.Map)
        (GenerateToken2 : String → String → Except String String),
        AuthController.Login repo2 GenerateToken2 Sample.noPassword
          = AuthController.Login Sample.mockAuthLib Sample.generateToken Sample.noPassword :=
  ⟨Or.inr (Or.inr rfl),
   Login_rejects_incomplete_request Sample.mockAuthLib Sample.generateToken Sample.noPassword
     (Or.inr (Or.inr rfl))⟩

/-- C13: for a request bound without error, with user name and password,
when `Login` of the repository returns an error, the handler answers with
status 500, data `nil`, and a message fixed by the text of the error:
"incorrect password" for "incorrect password", "account is not found" for
"record not found", and "there's some problem is server" for every other
text. -/
theorem Login_maps_repository_error
    (repo : String → String → Except String golang.Map)
    (GenerateToken : String → String → Except String String)
    (bound : AuthController.Bound) (e : String)
    (hbound : bound.err = none) (hname : bound.Userlogin.UserName ≠ "")
    (hpassword : bound.Userlogin.Password ≠ "")
    (hrepo : repo bound.Userlogin.UserName bound.Userlogin.Password = .error e) :
    ∃ body,
      (AuthController.Login repo GenerateToken bound).outcome
        = AuthController.Outcome.JSON 500 body ∧
      body.data = templates.Data.nil ∧
      (e = "incorrect password" → body.message = "incorrect password") ∧
      (e = "record not found" → body.message = "account is not found") ∧
      (e ≠ "incorrect password" → e ≠ "record not found" →
        body.message = "there's some problem is server") ∧
      (body.message = "incorrect password" ∨ body.message = "account is not found" ∨
        body.message = "there's some problem is server") := by
  have hcond : ¬ (bound.err ≠ none ∨ bound.Userlogin.UserName = "" ∨
      bound.Userlogin.Password = "") := by
    simp [hbound, hname, hpassword]
  unfold AuthController.Login
  simp only [if_neg hcond, hrepo]
  refine ⟨_, rfl, rfl, ?_, ?_, ?_, ?_⟩
  · intro he
    simp [templates.InternalServerError, AuthController.loginMessage, he]
  · intro he
    simp [templates.InternalServerError, AuthController.loginMessage, he]
  · intro h1 h2
    simp [templates.InternalServerError, AuthController.loginMessage, h1, h2]
  · by_cases h1 : e = "incorrect password"
    · left
      simp [templates.InternalServerError, AuthController.loginMessage, h1]
    · by_cases h2 : e = "record not found"
      · right; left
        simp [templates.InternalServerError, AuthController.loginMessage, h2]
      · right; right
        simp [templates.InternalServerError, AuthController.loginMessage, h1, h2]

/-- Witness of C13: a repository that fails with a driver error. -/
theorem Login_maps_repository_error_witness :
    (AuthController.Login (Sample.failingAuth "dial tcp: connection refused")
        Sample.generateToken Sample.loginBound).outcome
      = AuthController.Outcome.JSON 500
          { code := 500, message := "there's some problem is server",
            data := templates.Data.nil } ∧
    ∃ body,
      (AuthController.Login (Sample.failingAuth "dial tcp: connection refused")
          Sample.generateToken Sample.loginBound).outcome
        = AuthController.Outcome.JSON 500 body ∧
      body.data = templates.Data.nil ∧
      ("dial tcp: connection refused" = "incorrect password" →
        body.message = "incorrect password") ∧
      ("dial tcp: connection refused" = "record not found" →
        body.message = "account is not found") ∧
      ("dial tcp: connection refused" ≠ "incorrect password" →
        "dial tcp: connection refused" ≠ "record not found" →
        body.message = "there's some problem is server") ∧
      (body.message = "incorrect password" ∨ body.message = "account is not found" ∨
        body.message = "there's some problem is server") :=
  ⟨by decide,
   Login_maps_repository_error (Sample.failingAuth "dial tcp: connection refused")
     Sample.generateToken Sample.loginBound "dial tcp: connection refused" rfl (by decide)
     (by decide) rfl⟩

/-- C14: for a request bound without error, with user name and password,
when `Login` of the repository succeeds with string entries "data", "type"
and "doctor_uid" and the token generator succeeds on the data and the
type, the handler answers with status 200, the message "success login",
and as data the entries "type" and "doctor_uid" of the repository and the
token generated under "token". -/
theorem Login_success_response
    (repo : String → String → Except String golang.Map)
    (GenerateToken : String → String → Except String String)
    (bound : AuthController.Bound) (checkedUser : golang.Map)
    (data type_ doctor_uid token : String)
    (hbound : bound.err = none) (hname : bound.Userlogin.UserName ≠ "")
    (hpassword : bound.Userlogin.Password ≠ "")
    (hrepo : repo bound.Userlogin.UserName bound.Userlogin.Password = .ok checkedUser)
    (hdata : checkedUser.index "data" = golang.Value.str data)
    (htype : checkedUser.index "type" = golang.Value.str type_)
    (huid : checkedUser.index "doctor_uid" = golang.Value.str doctor_uid)
    (htoken : GenerateToken data type_ = .ok token) :
    ∃ body,
      (AuthController.Login repo GenerateToken bound).outcome
        = AuthController.Outcome.JSON 200 body ∧
      body.message = "success login" ∧
      body.data = templates.Data.object
        [("type", golang.Value.str type_), ("doctor_uid", golang.Value.str doctor_uid),
         ("token", golang.Value.str token)] := by
  have hcond : ¬ (bound.err ≠ none ∨ bound.Userlogin.UserName = "" ∨
      bound.Userlogin.Password = "") := by
    simp [hbound, hname, hpassword]
  unfold AuthController.Login
  simp only [if_neg hcond, hrepo, hdata, htype, huid, golang.Value.assertString, htoken]
  exact ⟨_, rfl, rfl, rfl⟩

/-- Witness of C14: the stub of `doctor_test.go`. -/
theorem Login_success_response_witness :
    (AuthController.Login Sample.mockAuthLib Sample.generateToken Sample.loginBound).calls
      = [AuthController.Call.Login "anonim@123" "anonim123",
         AuthController.Call.GenerateToken "abc" "clinic"] ∧
    ∃ body,
      (AuthController.Login Sample.mockAuthLib Sample.generateToken Sample.loginBound).outcome
        = AuthController.Outcome.JSON 200 body ∧
      body.message = "success login" ∧
      body.data = templates.Data.object
        [("type", golang.Value.str "clinic"), ("doctor_uid", golang.Value.str "abcde"),
         ("token", golang.Value.str "jwt:abc:clinic")] :=
  ⟨by decide,
   Login_success_response Sample.mockAuthLib Sample.generateToken Sample.loginBound
     [("data", golang.Value.str "abc"), ("doctor_uid", golang.Value.str "abcde"),
      ("type", golang.Value.str "clinic")]
     "abc" "clinic" "abcde" "jwt:abc:clinic" rfl (by decide) (by decide) rfl (by decide)
     (by decide) (by decide) rfl⟩

/-- C15 fails on the code: the repository stub of `visit_test.go` returns
the string entries "data" and "type" and no "doctor_uid"; the token is
generated, and then the handler panics on the type assertion
`checkedUser["doctor_uid"].(string)` instead of answering with a token. -/
theorem Login_panics_without_doctor_uid :
    Sample.mockAuthVisit "anonim@123" "anonim123"
      = .ok [("data", golang.Value.str "abc"), ("type", golang.Value.str "clinic")] ∧
    Sample.generateToken "abc" "clinic" = .ok "jwt:abc:clinic" ∧
    AuthController.Login Sample.mockAuthVisit Sample.generateToken Sample.loginBound
      = { outcome := AuthController.Outcome.panicked,
          calls := [AuthController.Call.Login "anonim@123" "anonim123",
                    AuthController.Call.GenerateToken "abc" "clinic"] } := by
  decide

/-- C16: passwords are stored hashed.  After a successful `Create` the
doctor row, the admin row and the record returned all carry
`HashPassword` of the requested password.  After a successful `Update`
with a non-empty password, the doctor table has a live row of the given
uid, and every such row carries `HashPassword` of the requested password
(a hash not being the empty string, which `Updates` would skip as a zero
value). -/
theorem Passwords_are_stored_hashed (env : Env) (db : DB) (req d : Doctor) (db1 : DB) :
    (Repo.Create env db req = some (.ok d, db1) →
      ∃ hashed doc adm,
        env.HashPassword req.Password = .ok hashed ∧
        db1.doctors = db.doctors ++ [doc, adm] ∧
        doc.Password = hashed ∧ adm.Password = hashed ∧ d.Password = hashed) ∧
    (∀ doctor_uid : String,
      Repo.Update env db doctor_uid req = (.ok d, db1) → req.Password ≠ "" →
      ∃ hashed,
        env.HashPassword req.Password = .ok hashed ∧
        (∃ r ∈ db1.doctors, r.DeletedAt = none ∧ r.Doctor_uid = doctor_uid) ∧
        (hashed ≠ "" →
          ∀ r ∈ db1.doctors, r.DeletedAt = none → r.Doctor_uid = doctor_uid →
            r.Password = hashed)) := by
  constructor
  · intro h
    obtain ⟨uid, uids, hashed, uid2, uids2, -, -, -, hh, -, -, -, -, -, hd, hdb⟩ :=
      Create_ok_inv h
    subst hd
    subst hdb
    refine ⟨hashed, Repo.doctorRow env req uid hashed,
      Repo.adminRow env (Repo.doctorRow env req uid hashed) uid2, hh, by simp, ?_, ?_, ?_⟩
    all_goals simp [Repo.doctorRow, Repo.adminRow, gorm.withDefaults]
  · intro doctor_uid h hpw
    obtain ⟨password, -, -, -, hhash, -, hfind, -, -, -, hdb⟩ := Update_ok_inv h
    have hh : env.HashPassword req.Password = .ok password := by
      unfold Repo.hashIfSet at hhash
      rw [if_pos hpw] at hhash
      exact hhash
    subst hdb
    refine ⟨password, hh, ?_, ?_⟩
    · have hex : ∃ r ∈ db.doctors, r.DeletedAt = none ∧ r.Doctor_uid = doctor_uid := by
        by_contra hno
        apply hfind
        apply findByUid_length_eq_zero.mpr
        intro r hr hlive huid
        exact hno ⟨r, hr, hlive, huid⟩
      obtain ⟨r, hr, hlive, huid⟩ := hex
      refine ⟨gorm.assign env.now (Repo.updateValues req password) r, ?_, ?_, ?_⟩
      · apply List.mem_map.mpr
        refine ⟨r, hr, ?_⟩
        rw [if_pos (by simp [gorm.liveDoctor, hlive, huid])]
      · rw [(assign_keeps_identity env.now req password r).1]
        exact hlive
      · rw [(assign_keeps_identity env.now req password r).2.1]
        exact huid
    · intro hne r hr hlive huid
      obtain ⟨r0, hr0, hmap⟩ := List.mem_map.mp hr
      by_cases hm : (gorm.liveDoctor r0 && r0.Doctor_uid == doctor_uid) = true
      · rw [if_pos hm] at hmap
        subst hmap
        simp [gorm.assign, Repo.updateValues, hne]
      · rw [if_neg hm] at hmap
        subst hmap
        exfalso
        apply hm
        simp [gorm.liveDoctor, hlive, huid]

/-- Witness of C16: the sample registration, and a change of password of
the row it stored. -/
theorem Passwords_are_stored_hashed_witness :
    Repo.Create Sample.env Sample.emptyDb Sample.req = some (.ok Sample.bob, Sample.bobDb) ∧
    Sample.bob.Password = "$2a$14$secret" ∧
    Sample.bobAdmin.Password = "$2a$14$secret" ∧
    Sample.env.HashPassword Sample.req.Password = .ok "$2a$14$secret" ∧
    Repo.Update Sample.later Sample.bobDb Sample.bob.Doctor_uid Sample.newPassword
      = (.ok gorm.zeroDoctor,
         { Sample.bobDb with
           doctors := [{ Sample.bob with Password := "$2a$14$s3cret", UpdatedAt := 1650000500 },
                       Sample.bobAdmin] }) ∧
    Sample.newPassword.Password ≠ "" ∧
    ∃ hashed,
      Sample.later.HashPassword Sample.newPassword.Password = .ok hashed ∧
      (∃ r ∈ [{ Sample.bob with Password := "$2a$14$s3cret", UpdatedAt := 1650000500 },
              Sample.bobAdmin],
        r.DeletedAt = none ∧ r.Doctor_uid = Sample.bob.Doctor_uid) ∧
      (hashed ≠ "" →
        ∀ r ∈ [{ Sample.bob with Password := "$2a$14$s3cret", UpdatedAt := 1650000500 },
               Sample.bobAdmin],
          r.DeletedAt = none → r.Doctor_uid = Sample.bob.Doctor_uid → r.Password = hashed) :=
  ⟨by decide, by decide, by decide, rfl, by decide, by decide,
   (Passwords_are_stored_hashed Sample.later Sample.bobDb Sample.newPassword gorm.zeroDoctor
     { Sample.bobDb with
       doctors := [{ Sample.bob with Password := "$2a$14$s3cret", UpdatedAt := 1650000500 },
                   Sample.bobAdmin] }).2
     Sample.bob.Doctor_uid (by decide) (by decide)⟩

/-- C17: for a request that is bound without error, validators that
accept it and a file store that succeeds, when the calls a handler makes
to the repository succeed, the code of the envelope is 201 for `Create`,
202 for `Update` and for `Delete`, and 200 for `GetProfile`, `GetCheck`
and `GetAll`. -/
theorem Doctor_handlers_success_codes (repo : DoctorController.Repository)
    (s3 : DoctorController.TaskS3) (logic : DoctorController.Logic)
    (r : DoctorController.Request) (req : Doctor)
    (hbound : r.bound = .ok req)
    (hstruct : logic.ValidationStruct req = none)
    (hrequest : logic.ValidationRequest req = none)
    (hupload : ∀ file, ∃ link, s3.UploadFileToS3 file = .ok link)
    (hstore : ∀ name file, s3.UpdateFileS3 name file = "success") :
    ((∀ d, ∃ x, repo.Create d = .ok x) →
      DoctorController.Create repo s3 logic r = 201) ∧
    ((∀ d, ∃ x, repo.Update r.doctor_uid d = .ok x) →
      (r.file ≠ none → ∃ p, repo.GetProfile r.doctor_uid "" "" = .ok p) →
      DoctorController.Update repo s3 logic r = 202) ∧
    ((∃ x, repo.Delete r.doctor_uid = .ok x) →
      DoctorController.Delete repo s3 logic r = 202) ∧
    ((∃ p, repo.GetProfile r.doctor_uid "" "" = .ok p) →
      DoctorController.GetProfile repo s3 logic r = 200) ∧
    ((∃ p, repo.GetProfile "" r.userName r.email = .ok p) →
      DoctorController.GetCheck repo s3 logic r = 200) ∧
    ((∃ a, repo.GetAll = .ok a) →
      DoctorController.GetAll repo s3 logic r = 200) := by
  refine ⟨?_, ?_, ?_, ?_, ?_, ?_⟩
  · intro hrepo
    unfold DoctorController.Create
    simp only [hbound, hstruct, hrequest, Option.isSome_none, Bool.false_eq_true, if_false]
    cases hfile : r.file with
    | none =>
      obtain ⟨x, hx⟩ := hrepo req
      simp [hx, DoctorController.createdCode]
    | some file =>
      obtain ⟨link, hlink⟩ := hupload file
      obtain ⟨x, hx⟩ := hrepo { req with Image := link }
      simp [hlink, hx, DoctorController.createdCode]
  · intro hrepo hprofile
    unfold DoctorController.Update
    simp only [hbound, hrequest, Option.isSome_none, Bool.false_eq_true, if_false]
    cases hfile : r.file with
    | none =>
      obtain ⟨x, hx⟩ := hrepo req
      simp [hx, DoctorController.acceptedCode]
    | some file =>
      obtain ⟨p, hp⟩ := hprofile (by simp [hfile])
      simp only [hp]
      by_cases himg : p.Image = gorm.defaultImage
      · obtain ⟨link, hlink⟩ := hupload file
        obtain ⟨x, hx⟩ := hrepo { req with Image := link }
        simp [himg, hlink, hx, DoctorController.acceptedCode]
      · obtain ⟨x, hx⟩ := hrepo req
        simp [himg, hstore, hx, DoctorController.acceptedCode]
  · intro ⟨x, hx⟩
    simp [DoctorController.Delete, hx, DoctorController.acceptedCode]
  · intro ⟨p, hp⟩
    simp [DoctorController.GetProfile, hp, http.StatusOK]
  · intro ⟨p, hp⟩
    simp [DoctorController.GetCheck, hp, http.StatusOK]
  · intro ⟨a, ha⟩
    simp [DoctorController.GetAll, ha, http.StatusOK]

/-- Witness of C17: the stubs `mockSuccess`, `mockTaskS3M` and
`successLogic` of the tests, on a request with a photo attached. -/
theorem Doctor_handlers_success_codes_witness :
    DoctorController.Create Sample.mockSuccess Sample.mockTaskS3M Sample.successLogic
      Sample.upload = 201 ∧
    DoctorController.Update Sample.mockSuccess Sample.mockTaskS3M Sample.successLogic
      Sample.upload = 202 ∧
    DoctorController.Delete Sample.mockSuccess Sample.mockTaskS3M Sample.successLogic
      Sample.upload = 202 ∧
    DoctorController.GetProfile Sample.mockSuccess Sample.mockTaskS3M Sample.successLogic
      Sample.upload = 200 ∧
    DoctorController.GetCheck Sample.mockSuccess Sample.mockTaskS3M Sample.successLogic
      Sample.upload = 200 ∧
    DoctorController.GetAll Sample.mockSuccess Sample.mockTaskS3M Sample.successLogic
      Sample.upload = 200 :=
  have h := Doctor_handlers_success_codes Sample.mockSuccess Sample.mockTaskS3M
    Sample.successLogic Sample.upload
    { gorm.zeroDoctor with
      UserName := "doctor1", Email := "doctor", Password := "doctor",
      Name := "name", Address := "123456789123456", Status := "status",
      OpenDay := "senin", CloseDay := "senin", Capacity := 50 }
    rfl rfl rfl (fun _ => ⟨"", rfl⟩) (fun _ _ => rfl)
  ⟨h.1 (fun _ => ⟨_, rfl⟩),
   h.2.1 (fun _ => ⟨_, rfl⟩) (fun _ => ⟨_, rfl⟩),
   h.2.2.1 ⟨_, rfl⟩,
   h.2.2.2.1 ⟨_, rfl⟩,
   h.2.2.2.2.1 ⟨_, rfl⟩,
   h.2.2.2.2.2 ⟨_, rfl⟩⟩

/-- C18: for a request that is bound without error and validators that
accept it, when the call a handler makes to the repository returns an
error, whatever its message, the code of the envelope is 500, for
`Create`, `Update`, `Delete`, `GetProfile` and `GetAll`. -/
theorem Doctor_handlers_repository_error_code (repo : DoctorController.Repository)
    (s3 : DoctorController.TaskS3) (logic : DoctorController.Logic)
    (r : DoctorController.Request) (req : Doctor)
    (hbound : r.bound = .ok req)
    (hstruct : logic.ValidationStruct req = none)
    (hrequest : logic.ValidationRequest req = none) :
    ((∀ d, ∃ e, repo.Create d = .error e) →
      DoctorController.Create repo s3 logic r = 500) ∧
    ((∀ d, ∃ e, repo.Update r.doctor_uid d = .error e) →
      DoctorController.Update repo s3 logic r = 500) ∧
    ((∃ e, repo.Delete r.doctor_uid = .error e) →
      DoctorController.Delete repo s3 logic r = 500) ∧
    ((∃ e, repo.GetProfile r.doctor_uid "" "" = .error e) →
      DoctorController.GetProfile repo s3 logic r = 500) ∧
    ((∃ e, repo.GetAll = .error e) →
      DoctorController.GetAll repo s3 logic r = 500) := by
  refine ⟨?_, ?_, ?_, ?_, ?_⟩
  · intro hrepo
    unfold DoctorController.Create
    simp only [hbound, hstruct, hrequest, Option.isSome_none, Bool.false_eq_true, if_false]
    cases hfile : r.file with
    | none =>
      obtain ⟨e, he⟩ := hrepo req
      simp [he, DoctorController.repositoryErrorCode, http.StatusInternalServerError]
    | some file =>
      cases hup : s3.UploadFileToS3 file with
      | error e0 => simp [hup, http.StatusInternalServerError]
      | ok link =>
        obtain ⟨e, he⟩ := hrepo { req with Image := link }
        simp [hup, he, DoctorController.repositoryErrorCode, http.StatusInternalServerError]
  · intro hrepo
    unfold DoctorController.Update
    simp only [hbound, hrequest, Option.isSome_none, Bool.false_eq_true, if_false]
    cases hfile : r.file with
    | none =>
      obtain ⟨e, he⟩ := hrepo req
      simp [he, DoctorController.repositoryErrorCode, http.StatusInternalServerError]
    | some file =>
      cases hp : repo.GetProfile r.doctor_uid "" "" with
      | error e0 =>
        simp [hp, DoctorController.repositoryErrorCode, http.StatusInternalServerError]
      | ok p =>
        by_cases himg : p.Image = gorm.defaultImage
        · cases hup : s3.UploadFileToS3 file with
          | error e0 => simp [hp, himg, hup, http.StatusInternalServerError]
          | ok link =>
            obtain ⟨e, he⟩ := hrepo { req with Image := link }
            simp [hp, himg, hup, he, DoctorController.repositoryErrorCode,
              http.StatusInternalServerError]
        · obtain ⟨e, he⟩ := hrepo req
          by_cases hst : s3.UpdateFileS3 p.Image file = "success"
          · simp [hp, himg, hst, he, DoctorController.repositoryErrorCode,
              http.StatusInternalServerError]
          · simp [hp, himg, hst, http.StatusInternalServerError]
  · intro ⟨e, he⟩
    simp [DoctorController.Delete, he, DoctorController.repositoryErrorCode,
      http.StatusInternalServerError]
  · intro ⟨e, he⟩
    simp [DoctorController.GetProfile, he, DoctorController.repositoryErrorCode,
      http.StatusInternalServerError]
  · intro ⟨e, he⟩
    simp [DoctorController.GetAll, he, DoctorController.repositoryErrorCode,
      http.StatusInternalServerError]

/-- Witness of C18: a repository that answers "record not found", as the
stub `recordNotFound` of the tests does. -/
theorem Doctor_handlers_repository_error_code_witness :
    DoctorController.Create (Sample.mockError "record not found") Sample.mockTaskS3M
      Sample.successLogic Sample.upload = 500 ∧
    DoctorController.Update (Sample.mockError "record not found") Sample.mockTaskS3M
      Sample.successLogic Sample.upload = 500 ∧
    DoctorController.Delete (Sample.mockError "record not found") Sample.mockTaskS3M
      Sample.successLogic Sample.upload = 500 ∧
    DoctorController.GetProfile (Sample.mockError "record not found") Sample.mockTaskS3M
      Sample.successLogic Sample.upload = 500 ∧
    DoctorController.GetAll (Sample.mockError "record not found") Sample.mockTaskS3M
      Sample.successLogic Sample.upload = 500 :=
  have h := Doctor_handlers_repository_error_code (Sample.mockError "record not found")
    Sample.mockTaskS3M Sample.successLogic Sample.upload
    { gorm.zeroDoctor with
      UserName := "doctor1", Email := "doctor", Password := "doctor",
      Name := "name", Address := "123456789123456", Status := "status",
      OpenDay := "senin", CloseDay := "senin", Capacity := 50 }
    rfl rfl rfl
  ⟨h.1 (fun _ => ⟨_, rfl⟩), h.2.1 (fun _ => ⟨_, rfl⟩), h.2.2.1 ⟨_, rfl⟩,
   h.2.2.2.1 ⟨_, rfl⟩, h.2.2.2.2 ⟨_, rfl⟩⟩

/-- C19: the transaction being open, `Update` with a non-empty user name
that a live patient row or a live doctor-table row has returns
"user name is already exist" and leaves the database as it was, also when
that row is the one being updated, and whatever the email of the request
is.  With a user name that is empty or free, a non-empty email that a
live doctor-table row has, the row being updated included, gives
"email is already exist" and an unchanged database. -/
theorem Update_rejects_taken_user_name_or_email (env : Env) (db : DB) (doctor_uid : String)
    (req : Doctor) (hbegin : env.dbFault Op.begin = none) :
    (req.UserName ≠ "" →
      ((∃ p ∈ db.patients, p.DeletedAt = none ∧ p.UserName = req.UserName) ∨
       (∃ r ∈ db.doctors, r.DeletedAt = none ∧ r.UserName = req.UserName)) →
      Repo.Update env db doctor_uid req = (.error "user name is already exist", db)) ∧
    (req.UserName ≠ "" →
      (∃ r ∈ db.doctors, r.DeletedAt = none ∧ r.Doctor_uid = doctor_uid ∧
        r.UserName = req.UserName) →
      Repo.Update env db doctor_uid req = (.error "user name is already exist", db)) ∧
    (req.Email ≠ "" →
      (∃ r ∈ db.doctors, r.DeletedAt = none ∧ r.Email = req.Email) →
      (req.UserName = "" ∨
        ((∀ p ∈ db.patients, p.DeletedAt = none → p.UserName ≠ req.UserName) ∧
         (∀ r ∈ db.doctors, r.DeletedAt = none → r.UserName ≠ req.UserName))) →
      Repo.Update env db doctor_uid req = (.error "email is already exist", db)) ∧
    (req.Email ≠ "" → req.UserName = "" →
      (∃ r ∈ db.doctors, r.DeletedAt = none ∧ r.Doctor_uid = doctor_uid ∧
        r.Email = req.Email) →
      Repo.Update env db doctor_uid req = (.error "email is already exist", db)) := by
  have hname : req.UserName ≠ "" →
      ((∃ p ∈ db.patients, p.DeletedAt = none ∧ p.UserName = req.UserName) ∨
       (∃ r ∈ db.doctors, r.DeletedAt = none ∧ r.UserName = req.UserName)) →
      Repo.Update env db doctor_uid req = (.error "user name is already exist", db) := by
    intro hne h
    have hrows : (gorm.userNameRows db req.UserName).length ≠ 0 := by
      intro h0
      obtain ⟨hp, hd⟩ := userNameRows_length_eq_zero.mp h0
      rcases h with ⟨p, hp1, hp2, hp3⟩ | ⟨r, hr1, hr2, hr3⟩
      · exact hp p hp1 hp2 hp3
      · exact hd r hr1 hr2 hr3
    unfold Repo.Update gorm.Begin
    simp only [hbegin]
    rw [if_pos ⟨hrows, hne⟩]
    rfl
  have hemail : req.Email ≠ "" →
      (∃ r ∈ db.doctors, r.DeletedAt = none ∧ r.Email = req.Email) →
      (req.UserName = "" ∨
        ((∀ p ∈ db.patients, p.DeletedAt = none → p.UserName ≠ req.UserName) ∧
         (∀ r ∈ db.doctors, r.DeletedAt = none → r.UserName ≠ req.UserName))) →
      Repo.Update env db doctor_uid req = (.error "email is already exist", db) := by
    intro hne h hfree
    have hrows : (gorm.emailRows db req.Email).length ≠ 0 := by
      intro h0
      obtain ⟨r, hr1, hr2, hr3⟩ := h
      exact emailRows_length_eq_zero.mp h0 r hr1 hr2 hr3
    have hpass : ¬ ((gorm.userNameRows db req.UserName).length ≠ 0 ∧ req.UserName ≠ "") := by
      rcases hfree with h0 | h0
      · simp [h0]
      · simp [userNameRows_length_eq_zero.mpr h0]
    unfold Repo.Update gorm.Begin
    simp only [hbegin]
    rw [if_neg hpass, if_pos ⟨hrows, hne⟩]
    rfl
  refine ⟨hname, ?_, hemail, ?_⟩
  · intro hne ⟨r, hr, hlive, _, hn⟩
    exact hname hne (Or.inr ⟨r, hr, hlive, hn⟩)
  · intro hne hu ⟨r, hr, hlive, _, he⟩
    exact hemail hne ⟨r, hr, hlive, he⟩ (Or.inl hu)

/-- Witness of C19: updates of the row of `bob` under its own user name,
under its own email, and under both. -/
theorem Update_rejects_taken_user_name_or_email_witness :
    Sample.later.dbFault Op.begin = none ∧
    Repo.Update Sample.later Sample.bobDb Sample.bob.Doctor_uid Sample.sameName
      = (.error "user name is already exist", Sample.bobDb) ∧
    Repo.Update Sample.later Sample.bobDb Sample.bob.Doctor_uid Sample.sameEmail
      = (.error "email is already exist", Sample.bobDb) ∧
    Repo.Update Sample.later Sample.bobDb Sample.bob.Doctor_uid
        { Sample.sameEmail with UserName := "drbob" }
      = (.error "user name is already exist", Sample.bobDb) :=
  ⟨rfl,
   (Update_rejects_taken_user_name_or_email Sample.later Sample.bobDb Sample.bob.Doctor_uid
     Sample.sameName rfl).2.1 (by decide) ⟨Sample.bob, by decide, by decide, by decide, by decide⟩,
   (Update_rejects_taken_user_name_or_email Sample.later Sample.bobDb Sample.bob.Doctor_uid
     Sample.sameEmail rfl).2.2.2 (by decide) (by decide)
     ⟨Sample.bob, by decide, by decide, by decide, by decide⟩,
   (Update_rejects_taken_user_name_or_email Sample.later Sample.bobDb Sample.bob.Doctor_uid
     { Sample.sameEmail with UserName := "drbob" } rfl).1 (by decide)
     (Or.inr ⟨Sample.bob, by decide, by decide, by decide⟩)⟩

/-- C20: for a request bound without error, with user name and password,
when `Login` of the repository succeeds with string entries "data" and
"type" and the token generator returns an error, the handler answers with
status 406, the message "there's some problem is server" and data `nil`:
the response carries no token. -/
theorem Login_token_failure_response
    (repo : String → String → Except String golang.Map)
    (GenerateToken : String → String → Except String String)
    (bound : AuthController.Bound) (checkedUser : golang.Map)
    (data type_ e : String)
    (hbound : bound.err = none) (hname : bound.Userlogin.UserName ≠ "")
    (hpassword : bound.Userlogin.Password ≠ "")
    (hrepo : repo bound.Userlogin.UserName bound.Userlogin.Password = .ok checkedUser)
    (hdata : checkedUser.index "data" = golang.Value.str data)
    (htype : checkedUser.index "type" = golang.Value.str type_)
    (htoken : GenerateToken data type_ = .error e) :
    (AuthController.Login repo GenerateToken bound).outcome
      = AuthController.Outcome.JSON 406
          { code := 406, message := "there's some problem is server",
            data := templates.Data.nil } := by
  have hcond : ¬ (bound.err ≠ none ∨ bound.Userlogin.UserName = "" ∨
      bound.Userlogin.Password = "") := by
    simp [hbound, hname, hpassword]
  unfold AuthController.Login
  simp only [if_neg hcond, hrepo, hdata, htype, golang.Value.assertString, htoken]
  rfl

/-- Witness of C20: the stub of `doctor_test.go` with a token generator
that fails. -/
theorem Login_token_failure_response_witness :
    Sample.failingToken "abc" "clinic" = .error "key is of invalid type" ∧
    (AuthController.Login Sample.mockAuthLib Sample.failingToken Sample.loginBound).outcome
      = AuthController.Outcome.JSON 406
          { code := 406, message := "there's some problem is server",
            data := templates.Data.nil } :=
  ⟨rfl,
   Login_token_failure_response Sample.mockAuthLib Sample.failingToken Sample.loginBound
     [("data", golang.Value.str "abc"), ("doctor_uid", golang.Value.str "abcde"),
      ("type", golang.Value.str "clinic")]
     "abc" "clinic" "key is of invalid type" rfl (by decide) (by decide) rfl (by decide)
     (by decide) rfl⟩

/-- C21 fails on the code: `Create` makes its two inserts outside any
transaction.  The user name of the request has 96 characters; the doctor
row is inserted; the user name of the admin row, "admin" followed by it,
is too long for the column, the second insert fails and `Create` returns
that error; the doctor table, empty before the call, now holds the doctor
row. -/
theorem Create_error_leaves_doctor_row :
    Sample.longName.UserName.length = 96 ∧
    Sample.emptyDb.doctors = [] ∧
    Repo.Create Sample.env Sample.emptyDb Sample.longName
      = some (.error "Error 1406: Data too long for column 'user_name' at row 1",
          { doctors := [Sample.maria], patients := [], visits := [] }) := by
  decide

/-- C22: after a successful `Update` the doctor table has the rows it had,
in the same order; every row that is not a live row of the given uid is as
it was, the paired admin row among them; in a live row of the given uid
each of UserName, Email, Name, Image, Address, Status, OpenDay, CloseDay
and Capacity keeps its value when the request has the zero value and takes
the value of the request otherwise, the password takes the hash of a
non-empty requested password (a hash not being the empty string) and stays
otherwise, and `Doctor_uid`, `Doctor_uid_ref`, `Type`, `CreatedAt` and
`DeletedAt` are unchanged; the other tables are as before. -/
theorem Update_changes_given_fields_only (env : Env) (db : DB) (doctor_uid : String)
    (req d : Doctor) (db1 : DB)
    (h : Repo.Update env db doctor_uid req = (.ok d, db1)) :
    ∃ (password : String) (updated : Doctor → Doctor),
      (req.Password = "" → password = "") ∧
      (req.Password ≠ "" → env.HashPassword req.Password = .ok password) ∧
      db1.doctors = db.doctors.map (fun r =>
        if r.DeletedAt = none ∧ r.Doctor_uid = doctor_uid then updated r else r) ∧
      db1.patients = db.patients ∧ db1.visits = db.visits ∧
      ∀ r : Doctor,
        (updated r).UserName = (if req.UserName = "" then r.UserName else req.UserName) ∧
        (updated r).Email = (if req.Email = "" then r.Email else req.Email) ∧
        (updated r).Password = (if password = "" then r.Password else password) ∧
        (updated r).Name = (if req.Name = "" then r.Name else req.Name) ∧
        (updated r).Image = (if req.Image = "" then r.Image else req.Image) ∧
        (updated r).Address = (if req.Address = "" then r.Address else req.Address) ∧
        (updated r).Status = (if req.Status = "" then r.Status else req.Status) ∧
        (updated r).OpenDay = (if req.OpenDay = "" then r.OpenDay else req.OpenDay) ∧
        (updated r).CloseDay = (if req.CloseDay = "" then r.CloseDay else req.CloseDay) ∧
        (updated r).Capacity = (if req.Capacity = 0 then r.Capacity else req.Capacity) ∧
        (updated r).Doctor_uid = r.Doctor_uid ∧
        (updated r).Doctor_uid_ref = r.Doctor_uid_ref ∧
        (updated r).Type_ = r.Type_ ∧
        (updated r).CreatedAt = r.CreatedAt ∧
        (updated r).DeletedAt = r.DeletedAt := by
  obtain ⟨password, -, -, -, hhash, -, -, -, -, -, hdb⟩ := Update_ok_inv h
  subst hdb
  refine ⟨password, gorm.assign env.now (Repo.updateValues req password), ?_, ?_, ?_, rfl, rfl,
    ?_⟩
  · intro hp
    unfold Repo.hashIfSet at hhash
    simp only [hp, ne_eq, not_true_eq_false, if_false, Except.ok.injEq] at hhash
    exact hhash.symm
  · intro hp
    unfold Repo.hashIfSet at hhash
    rw [if_pos hp] at hhash
    exact hhash
  · apply List.map_congr_left
    intro r _
    simp [gorm.liveDoctor]
  · intro r
    simp [gorm.assign, Repo.updateValues, gorm.zeroDoctor]

/-- Witness of C22: an update of the name and the capacity of `bob`. -/
theorem Update_changes_given_fields_only_witness :
    Repo.Update Sample.later Sample.bobDb Sample.bob.Doctor_uid Sample.rename2
      = (.ok gorm.zeroDoctor,
         { Sample.bobDb with
           doctors := [{ Sample.bob with Name := "Robert", Capacity := 30,
                                         UpdatedAt := 1650000500 },
                       Sample.bobAdmin] }) ∧
    ∃ (password : String) (updated : Doctor → Doctor),
      (Sample.rename2.Password = "" → password = "") ∧
      (Sample.rename2.Password ≠ "" →
        Sample.later.HashPassword Sample.rename2.Password = .ok password) ∧
      [{ Sample.bob with Name := "Robert", Capacity := 30, UpdatedAt := 1650000500 },
        Sample.bobAdmin]
        = Sample.bobDb.doctors.map (fun r =>
          if r.DeletedAt = none ∧ r.Doctor_uid = Sample.bob.Doctor_uid then updated r else r) ∧
      Sample.bobDb.patients = Sample.bobDb.patients ∧
      Sample.bobDb.visits = Sample.bobDb.visits ∧
      ∀ r : Doctor,
        (updated r).UserName
          = (if Sample.rename2.UserName = "" then r.UserName else Sample.rename2.UserName) ∧
        (updated r).Email = (if Sample.rename2.Email = "" then r.Email else Sample.rename2.Email) ∧
        (updated r).Password = (if password = "" then r.Password else password) ∧
        (updated r).Name = (if Sample.rename2.Name = "" then r.Name else Sample.rename2.Name) ∧
        (updated r).Image = (if Sample.rename2.Image = "" then r.Image else Sample.rename2.Image) ∧
        (updated r).Address
          = (if Sample.rename2.Address = "" then r.Address else Sample.rename2.Address) ∧
        (updated r).Status
          = (if Sample.rename2.Status = "" then r.Status else Sample.rename2.Status) ∧
        (updated r).OpenDay
          = (if Sample.rename2.OpenDay = "" then r.OpenDay else Sample.rename2.OpenDay) ∧
        (updated r).CloseDay
          = (if Sample.rename2.CloseDay = "" then r.CloseDay else Sample.rename2.CloseDay) ∧
        (updated r).Capacity
          = (if Sample.rename2.Capacity = 0 then r.Capacity else Sample.rename2.Capacity) ∧
        (updated r).Doctor_uid = r.Doctor_uid ∧
        (updated r).Doctor_uid_ref = r.Doctor_uid_ref ∧
        (updated r).Type_ = r.Type_ ∧
        (updated r).CreatedAt = r.CreatedAt ∧
        (updated r).DeletedAt = r.DeletedAt :=
  ⟨by decide,
   Update_changes_given_fields_only Sample.later Sample.bobDb Sample.bob.Doctor_uid
     Sample.rename2 gorm.zeroDoctor
     { Sample.bobDb with
       doctors := [{ Sample.bob with Name := "Robert", Capacity := 30,
                                     UpdatedAt := 1650000500 },
                   Sample.bobAdmin] }
     (by decide)⟩

/-- C23: the record a successful `Update` returns is the zero value of
`entities.Doctor`, every field empty, whatever the request and the stored
rows are. -/
theorem Update_returns_zero_record (env : Env) (db : DB) (doctor_uid : String)
    (req d : Doctor) (db1 : DB)
    (h : Repo.Update env db doctor_uid req = (.ok d, db1)) :
    d = { CreatedAt := 0, UpdatedAt := 0, DeletedAt := none, Doctor_uid := "",
          Doctor_uid_ref := "", UserName := "", Email := "", Password := "", Name := "",
          Image := "", Address := "", Status := "", OpenDay := "", CloseDay := "",
          Capacity := 0, Type_ := "" } := by
  obtain ⟨password, -, -, -, -, -, -, -, -, hd, -⟩ := Update_ok_inv h
  rw [hd]
  rfl

/-- Witness of C23: the update of the name and the capacity of `bob`. -/
theorem Update_returns_zero_record_witness :
    Repo.Update Sample.later Sample.bobDb Sample.bob.Doctor_uid Sample.rename2
      = (.ok gorm.zeroDoctor,
         { Sample.bobDb with
           doctors := [{ Sample.bob with Name := "Robert", Capacity := 30,
                                         UpdatedAt := 1650000500 },
                       Sample.bobAdmin] }) ∧
    gorm.zeroDoctor
      = { CreatedAt := 0, UpdatedAt := 0, DeletedAt := none, Doctor_uid := "",
          Doctor_uid_ref := "", UserName := "", Email := "", Password := "", Name := "",
          Image := "", Address := "", Status := "", OpenDay := "", CloseDay := "",
          Capacity := 0, Type_ := "" } :=
  ⟨by decide,
   Update_returns_zero_record Sample.later Sample.bobDb Sample.bob.Doctor_uid Sample.rename2
     gorm.zeroDoctor
     { Sample.bobDb with
       doctors := [{ Sample.bob with Name := "Robert", Capacity := 30,
                                     UpdatedAt := 1650000500 },
                   Sample.bobAdmin] }
     (by decide)⟩

/-- C24: `Create` ignores the identity fields of the request.  Whatever
`Doctor_uid`, `Doctor_uid_ref` and `Type` the request carries, the result
and the database afterwards are those of the request without them, the
uids generated being the same.  The record a successful `Create` returns
is the doctor row stored; it has type "doctor", and its `Doctor_uid` and
`Doctor_uid_ref` are one uid, drawn from the generator and carried by no
row before the call; the row stored next to it has type "admin". -/
theorem Create_ignores_identity_fields (env : Env) (db : DB) (req : Doctor)
    (doctor_uid doctor_uid_ref type_ : String) :
    Repo.Create env db
        { req with Doctor_uid := doctor_uid, Doctor_uid_ref := doctor_uid_ref, Type_ := type_ }
      = Repo.Create env db req ∧
    ∀ (d : Doctor) (db1 : DB), Repo.Create env db req = some (.ok d, db1) →
      d.Type_ = "doctor" ∧ d.Doctor_uid_ref = d.Doctor_uid ∧ d.Doctor_uid ∈ env.uids ∧
      (∀ r ∈ db.doctors, r.Doctor_uid ≠ d.Doctor_uid) ∧
      ∃ adm : Doctor, db1.doctors = db.doctors ++ [d, adm] ∧ adm.Type_ = "admin" := by
  constructor
  · rfl
  · intro d db1 h
    obtain ⟨uid, uids, hashed, uid2, uids2, -, -, hf, -, -, hany, -, -, -, hd, hdb⟩ :=
      Create_ok_inv h
    subst hd
    subst hdb
    refine ⟨?_, ?_, ?_, ?_, Repo.adminRow env (Repo.doctorRow env req uid hashed) uid2, ?_, ?_⟩
    · simp [Repo.doctorRow, gorm.withDefaults]
    · simp [Repo.doctorRow, gorm.withDefaults]
    · have hmem := (fresh_is_free hf).2
      simpa [Repo.doctorRow, gorm.withDefaults] using hmem
    · intro r hr
      have h1 : ∀ x ∈ db.doctors, ¬ x.Doctor_uid = uid := by simpa using hany
      simpa [Repo.doctorRow, gorm.withDefaults] using h1 r hr
    · simp
    · simp [Repo.adminRow, gorm.withDefaults]

/-- Witness of C24: the sample request, with and without identity fields
of its own. -/
theorem Create_ignores_identity_fields_witness :
    Repo.Create Sample.env Sample.emptyDb Sample.forged
      = some (.ok Sample.bob, Sample.bobDb) ∧
    Repo.Create Sample.env Sample.emptyDb
        { Sample.req with Doctor_uid := "root", Doctor_uid_ref := "root", Type_ := "admin" }
      = Repo.Create Sample.env Sample.emptyDb Sample.req ∧
    (Sample.bob.Type_ = "doctor" ∧ Sample.bob.Doctor_uid_ref = Sample.bob.Doctor_uid ∧
      Sample.bob.Doctor_uid ∈ Sample.env.uids ∧
      (∀ r ∈ Sample.emptyDb.doctors, r.Doctor_uid ≠ Sample.bob.Doctor_uid) ∧
      ∃ adm : Doctor,
        Sample.bobDb.doctors = Sample.emptyDb.doctors ++ [Sample.bob, adm] ∧
        adm.Type_ = "admin") :=
  ⟨by decide,
   (Create_ignores_identity_fields Sample.env Sample.emptyDb Sample.req "root" "root"
     "admin").1,
   (Create_ignores_identity_fields Sample.env Sample.emptyDb Sample.req "root" "root"
     "admin").2 Sample.bob Sample.bobDb (by decide)⟩

/-- C26 fails on the code: `GetProfile` splices its argument into the text
of the condition.  No row of the sample database has the user name
`x' OR '1'='1`, and `GetProfile` by that user name succeeds and returns
the profile of the first live row. -/
theorem GetProfile_accepts_spliced_condition :
    Repo.profileCondition "" "x' OR '1'='1" ""
      = "user_name = 'x' OR '1'='1'" ∧
    (Sample.bobDb.doctors.map (fun r => r.UserName)) = ["drbob", "admindrbob"] ∧
    Repo.GetProfile Sample.bobDb "" "x' OR '1'='1" ""
      = .ok (Repo.profileOf Sample.bob) := by
  decide

/-- C27 fails on the code: the databases `bobDb` and `bobDb2` differ in
the passwords of their rows only, and `GetProfile` with the user name
`x' OR password = '$2a$14$secret` returns a profile on the first and
"record not found" on the second: the answer tells whether a row has the
password named in the argument. -/
theorem GetProfile_tells_password :
    Sample.bobDb2.doctors
      = Sample.bobDb.doctors.map (fun r => { r with Password := "$2a$14$hunter2" }) ∧
    Sample.bobDb2.patients = Sample.bobDb.patients ∧
    Sample.bobDb2.visits = Sample.bobDb.visits ∧
    Repo.GetProfile Sample.bobDb "" "x' OR password = '$2a$14$secret" ""
      = .ok (Repo.profileOf Sample.bob) ∧
    Repo.GetProfile Sample.bobDb2 "" "x' OR password = '$2a$14$secret" ""
      = .error "record not found" := by
  decide

/-- C29 fails on the code: the request with the user name `o'brien` is
accepted by `Create`, which binds the name as a parameter; `GetProfile`
by the uid returned finds the row; `GetProfile` by the user name splices
the name into the text of the condition, the database refuses the text,
and the result is "record not found". -/
theorem Create_then_GetProfile_by_quoted_name :
    Repo.Create Sample.env Sample.emptyDb Sample.obrien
      = some (.ok Sample.pat,
          { doctors := [Sample.pat, Sample.patAdmin], patients := [], visits := [] }) ∧
    Repo.GetProfile { doctors := [Sample.pat, Sample.patAdmin], patients := [], visits := [] }
        Sample.pat.Doctor_uid "" ""
      = .ok (Repo.profileOf Sample.pat) ∧
    Repo.profileCondition "" Sample.obrien.UserName "" = "user_name = 'o'brien'" ∧
    Repo.GetProfile { doctors := [Sample.pat, Sample.patAdmin], patients := [], visits := [] }
        "" Sample.obrien.UserName ""
      = .error "record not found" := by
  decide
